import Mathlib

/-!
# Event check-in widget (`script.js`)

A shallow embedding of the state logic of `script.js` and the properties of its
specification that were settled against it.

Conventions of the embedding.

* A JavaScript number is an IEEE 754 double.  A finite double is represented
  by the rational it denotes, and `Number(x)` may also give `Infinity`,
  `-Infinity` or `NaN` (`JSNum`).  Every operation that produces a number
  rounds as the double operation does: to the nearest double, ties to even
  (`roundFinite`), with overflow to an infinity (`roundDouble`).  The two
  zeros are not told apart; no operation of the script distinguishes them.
* `localStorage` holds one slot.  Its content is represented by what
  `JSON.parse` makes of it (`Stored`), and `JSON.stringify` followed by
  `JSON.parse` is the map `Json.jsonImage`.  Whether a call of `setItem`
  returns or raises is decided by the host and is an input of the model.
* The DOM elements the script looks up exist.  Writes to the DOM carry no
  state of their own; the greeting and the banner are recorded as effects,
  and the only DOM step that can raise (the roster rebuild) is modelled by
  whether it completes.
* A thrown exception is modelled by `Except JSError`, or by the field
  `completed` of an `Outcome`.
-/

namespace CheckIn

/-! ## JavaScript numbers -/

/-- The kinds of exception that the modelled code can meet. -/
inductive JSError
  | typeError
  | syntaxError
  | storageError
deriving DecidableEq, Repr

/-- A JavaScript number: the result of the builtin `Number(x)`. -/
inductive JSNum
  | fin (q : ℚ)
  | posInf
  | negInf
  | nan
deriving DecidableEq

/-- Round a rational to the nearest integer, ties to the even one. -/
def roundHalfEven (x : ℚ) : ℤ :=
  if x - ⌊x⌋ < 1 / 2 then ⌊x⌋
  else if 1 / 2 < x - ⌊x⌋ then ⌊x⌋ + 1
  else if ⌊x⌋ % 2 = 0 then ⌊x⌋
  else ⌊x⌋ + 1

/-- The spacing of the doubles at magnitude `a > 0`: `2 ^ (e - 52)` where
`2 ^ e ≤ a < 2 ^ (e + 1)`, and `2 ^ (-1074)` throughout the subnormal range. -/
def ulp (a : ℚ) : ℚ :=
  (2 : ℚ) ^ (max (Int.log 2 a) (-1022) - 52)

/-- Round to the nearest multiple of the spacing, ties to even: the double
nearest to `q`, as long as the result is below `2 ^ 1024`. -/
def roundFinite (q : ℚ) : ℚ :=
  if q = 0 then 0 else (roundHalfEven (q / ulp |q|) : ℚ) * ulp |q|

/-- The double that a real value is rounded to, with overflow to an infinity. -/
def roundDouble (q : ℚ) : JSNum :=
  if (2 : ℚ) ^ 1024 ≤ |roundFinite q| then (if 0 < q then .posInf else .negInf)
  else .fin (roundFinite q)

/-- The sum `x + 1` of doubles, for a finite `x`: the exact sum, rounded.  The
rounded sum of a double and 1 never exceeds the largest double, so the result
is finite. -/
def addOne (x : ℚ) : ℚ :=
  roundFinite (x + 1)

/-! ## Values parsed from JSON -/

/-- A value as `JSON.parse` returns it (`undefined` is `none : Option Json`).
A number is a double; a literal too large for a double parses to an infinity. -/
inductive Json
  | null
  | bool (b : Bool)
  | num (n : JSNum)
  | str (s : String)
  | arr (items : List Json)
  | obj (props : List (String × Json))

/-- The `StrWhiteSpaceChar` of ECMA-262 (`WhiteSpace` and `LineTerminator`): the
characters that `String.prototype.trim` strips and that `Number` skips. -/
def isStrWhiteSpaceChar (c : Char) : Bool :=
  let n := c.toNat
  [0x09, 0x0A, 0x0B, 0x0C, 0x0D, 0x20, 0xA0, 0x1680, 0x2028, 0x2029,
    0x202F, 0x205F, 0x3000, 0xFEFF].contains n || (0x2000 ≤ n && n ≤ 0x200A)

/-- Remove leading and trailing white space from a list of characters. -/
def trimChars (cs : List Char) : List Char :=
  ((cs.dropWhile isStrWhiteSpaceChar).reverse.dropWhile isStrWhiteSpaceChar).reverse

/-- The builtin `String.prototype.trim`. -/
def jsTrim (s : String) : String :=
  String.mk (trimChars s.data)

/-- Value of a digit character in the given base, if it is one. -/
def digitValue (base : ℕ) (c : Char) : Option ℕ :=
  let n := c.toNat
  let v : Option ℕ :=
    if 48 ≤ n ∧ n ≤ 57 then some (n - 48)
    else if 97 ≤ n ∧ n ≤ 102 then some (n - 87)
    else if 65 ≤ n ∧ n ≤ 70 then some (n - 55)
    else none
  match v with
  | some d => if d < base then some d else none
  | none => none

/-- A non-empty run of digits of the given base, read as a natural number. -/
def readDigits (base : ℕ) (cs : List Char) : Option ℕ :=
  if cs = [] then none
  else cs.foldl
    (fun acc c =>
      match acc, digitValue base c with
      | some a, some d => some (a * base + d)
      | _, _ => none)
    (some 0)

/-- Decimal digit test. -/
def isDecimalDigit (c : Char) : Bool :=
  (digitValue 10 c).isSome

/-- An `ExponentPart`, or nothing, up to the end of the input: the exponent. -/
def readExponent (cs : List Char) : Option ℤ :=
  match cs with
  | [] => some 0
  | e :: rest =>
    if e = 'e' ∨ e = 'E' then
      match rest with
      | '+' :: ds => (readDigits 10 ds).map (fun n => (n : ℤ))
      | '-' :: ds => (readDigits 10 ds).map (fun n => -(n : ℤ))
      | ds => (readDigits 10 ds).map (fun n => (n : ℤ))
    else none

/-- The digits of the fraction: those that follow a leading point. -/
def fractionDigits (cs : List Char) : List Char :=
  match cs with
  | '.' :: t => t.takeWhile isDecimalDigit
  | _ => []

/-- What follows the fraction, if there is one. -/
def afterFraction (cs : List Char) : List Char :=
  match cs with
  | '.' :: t => t.dropWhile isDecimalDigit
  | _ => cs

/-- A `StrUnsignedDecimalLiteral` other than `Infinity`: its mathematical value. -/
def readUnsignedDecimal (cs : List Char) : Option ℚ :=
  let ip := cs.takeWhile isDecimalDigit
  let r1 := cs.dropWhile isDecimalDigit
  let fp := fractionDigits r1
  let r2 := afterFraction r1
  if ip = [] ∧ fp = [] then none
  else
    match readExponent r2 with
    | none => none
    | some e =>
      let i : ℕ := (readDigits 10 ip).getD 0
      let f : ℕ := (readDigits 10 fp).getD 0
      some (((i : ℚ) + (f : ℚ) / (10 : ℚ) ^ fp.length) * (10 : ℚ) ^ e)

/-- A `StrDecimalLiteral` after its optional sign has been taken off: the
mathematical value, rounded to a double. -/
def readSignedBody (negative : Bool) (cs : List Char) : JSNum :=
  if cs = "Infinity".data then (if negative then .negInf else .posInf)
  else
    match readUnsignedDecimal cs with
    | some q => roundDouble (if negative then -q else q)
    | none => .nan

/-- A `StrNumericLiteral`: the mathematical value, rounded to a double. -/
def readNumericLiteral (cs : List Char) : JSNum :=
  match cs with
  | '0' :: p :: ds =>
    if p = 'x' ∨ p = 'X' then
      (match readDigits 16 ds with | some n => roundDouble n | none => .nan)
    else if p = 'o' ∨ p = 'O' then
      (match readDigits 8 ds with | some n => roundDouble n | none => .nan)
    else if p = 'b' ∨ p = 'B' then
      (match readDigits 2 ds with | some n => roundDouble n | none => .nan)
    else readSignedBody false cs
  | '+' :: rest => readSignedBody false rest
  | '-' :: rest => readSignedBody true rest
  | _ => readSignedBody false cs

/-- The operation `StringToNumber`: what `Number(s)` gives for a string `s`. -/
def stringToNumber (s : String) : JSNum :=
  let cs := trimChars s.data
  if cs = [] then .fin 0 else readNumericLiteral cs

mutual
/-- Whether `ToString(v)` raises a TypeError: an object parsed from JSON that has an
own property `toString` (never callable) has no usable conversion, and an
array converts each of its elements. -/
def Json.toStringThrows : Json → Bool
  | .obj ps => ps.any (fun p => p.1 == "toString")
  | .arr xs => anyToStringThrows xs
  | _ => false
/-- Some element of the list has a `ToString` that raises. -/
def anyToStringThrows : List Json → Bool
  | [] => false
  | x :: xs => x.toStringThrows || anyToStringThrows xs
end

mutual
/-- The number `StringToNumber(ToString(x))` for an array element `x` whose conversion
does not raise (`join` turns `null` into the empty string; the text of a
double reads back as that double). -/
def Json.elementNumber : Json → JSNum
  | .null => .fin 0
  | .bool _ => .nan
  | .num n => n
  | .str s => stringToNumber s
  | .arr ys => arrayNumber ys
  | .obj _ => .nan
/-- The number `StringToNumber(xs.join(","))`: a comma never occurs in a numeric literal. -/
def arrayNumber : List Json → JSNum
  | [] => .fin 0
  | [x] => x.elementNumber
  | _ :: _ :: _ => .nan
end

/-- The builtin `Number(x)`. -/
def toNumber : Option Json → Except JSError JSNum
  | none => pure .nan
  | some .null => pure (.fin 0)
  | some (.bool b) => pure (.fin (if b then 1 else 0))
  | some (.num n) => pure n
  | some (.str s) => pure (stringToNumber s)
  | some (.arr xs) =>
    if anyToStringThrows xs then throw .typeError else pure (arrayNumber xs)
  | some (.obj ps) =>
    if (Json.obj ps).toStringThrows then throw .typeError else pure .nan

/-- The builtin `Boolean(x)`. -/
def toBoolean : Option Json → Bool
  | none => false
  | some .null => false
  | some (.bool b) => b
  | some (.num (.fin q)) => decide (q ≠ 0)
  | some (.num .nan) => false
  | some (.num _) => true
  | some (.str s) => decide (s ≠ "")
  | some (.arr _) => true
  | some (.obj _) => true

/-- Property read `v.k`, for a name `k` that no builtin prototype defines
(the names read by `loadState`: total, teams, attendees, goalCelebrated). -/
def Json.get (v : Json) (k : String) : Except JSError (Option Json) :=
  match v with
  | .null => throw .typeError
  | .obj ps => pure (ps.lookup k)
  | _ => pure none

/-- Optional chaining `v?.k`, for a name `k` that no builtin prototype
defines (teams, water, zero, power). -/
def optGet (v : Option Json) (k : String) : Option Json :=
  match v with
  | some (.obj ps) => ps.lookup k
  | _ => none

mutual
/-- What `JSON.parse(JSON.stringify(v))` is: `JSON.stringify` writes a number
that is not finite as `null`. -/
def Json.jsonImage : Json → Json
  | .num (.fin q) => .num (.fin q)
  | .num _ => .null
  | .arr xs => .arr (jsonImageList xs)
  | .obj ps => .obj (jsonImageProps ps)
  | v => v
/-- The image of the elements of an array. -/
def jsonImageList : List Json → List Json
  | [] => []
  | x :: xs => x.jsonImage :: jsonImageList xs
/-- The image of the properties of an object. -/
def jsonImageProps : List (String × Json) → List (String × Json)
  | [] => []
  | (k, v) :: ps => (k, v.jsonImage) :: jsonImageProps ps
end

/-! ## The state record -/

/-- The object `state.teams`: the three counters that every state carries,
and the further own properties it may have acquired, in creation order.
A counter is a finite double (`coerceNumber` admits nothing else and `+= 1`
keeps it finite); a further property always holds a string (see `Teams.bump`). -/
structure Teams where
  water : ℚ
  zero : ℚ
  power : ℚ
  extra : List (String × String)

/-- The object `state`. -/
structure State where
  total : ℚ
  teams : Teams
  attendees : List Json
  goalCelebrated : Bool

/-- Content of the `localStorage` slot `attendanceState-v2`, as
`loadState` sees it. -/
inductive Stored
  | absent
  | empty
  | unparsable
  | json (v : Json)

/-- The default shape. -/
def defaultState : State :=
  { total := 0
    teams := { water := 0, zero := 0, power := 0, extra := [] }
    attendees := []
    goalCelebrated := false }

/-- The function `coerceNumber(n, fallback = 0)`. -/
def coerceNumber (n : Option Json) (fallback : ℚ := 0) : Except JSError ℚ := do
  let v ← toNumber n
  match v with
  | .fin q => pure q
  | _ => pure fallback

/-- The `try` block of `loadState`. -/
def loadStateTry (raw : Stored) : Except JSError State :=
  match raw with
  | .absent => pure defaultState
  | .empty => pure defaultState
  | .unparsable => throw .syntaxError
  | .json parsed => do
    let total ← coerceNumber (← parsed.get "total") 0
    let water ← coerceNumber (optGet (optGet (some parsed) "teams") "water") 0
    let zero ← coerceNumber (optGet (optGet (some parsed) "teams") "zero") 0
    let power ← coerceNumber (optGet (optGet (some parsed) "teams") "power") 0
    let attendees := match (← parsed.get "attendees") with
      | some (.arr xs) => xs
      | _ => []
    let goalCelebrated := toBoolean (← parsed.get "goalCelebrated")
    pure { total := total
           teams := { water := water, zero := zero, power := power, extra := [] }
           attendees := attendees
           goalCelebrated := goalCelebrated }

/-- The function `loadState`. -/
def loadState (raw : Stored) : State :=
  match loadStateTry raw with
  | .ok s => s
  | .error _ => defaultState

/-- What `JSON.parse(JSON.stringify(state))` is. -/
def State.toJson (s : State) : Json :=
  .obj
    [ ("total", .num (.fin s.total)),
      ("teams", .obj
        ([("water", .num (.fin s.teams.water)), ("zero", .num (.fin s.teams.zero)),
          ("power", .num (.fin s.teams.power))]
          ++ s.teams.extra.map (fun p => (p.1, Json.str p.2)))),
      ("attendees", .arr (jsonImageList s.attendees)),
      ("goalCelebrated", .bool s.goalCelebrated) ]

/-- The in-memory state and the storage slot. -/
structure World where
  state : State
  stored : Stored

/-- The function `saveState`.  The call of `localStorage.setItem` either
stores the text of `state` (`writeOk`) or raises, leaving the slot as it was;
the script does not catch the exception. -/
def saveState (writeOk : Bool) (w : World) : Except JSError World :=
  if writeOk then pure { w with stored := .json w.state.toJson }
  else throw .storageError

/-! ## Property reads on the two plain objects of the module

`TEAM_LABEL` and `state.teams` are created by object literals, so a read of
a property they do not own falls through to `Object.prototype`. -/

/-- A value found on `Object.prototype`: one of its methods, or (through the
accessor `__proto__`) the prototype object itself. -/
inductive Inherited
  | method (name : String)
  | objectPrototype
deriving DecidableEq

/-- Names of the data properties of `Object.prototype` (all writable). -/
def objectPrototypeMethods : List String :=
  ["constructor", "__defineGetter__", "__defineSetter__", "hasOwnProperty",
   "__lookupGetter__", "__lookupSetter__", "isPrototypeOf",
   "propertyIsEnumerable", "toString", "valueOf", "toLocaleString"]

/-- A read of `k` that reaches `Object.prototype`. -/
def inheritedProperty (k : String) : Option Inherited :=
  if k = "__proto__" then some .objectPrototype
  else if objectPrototypeMethods.contains k then some (.method k)
  else none

/-- The `ToString` of an inherited value: the source text of a native function
(in the form the V8 and SpiderMonkey engines print it), or the tag of a
plain object. -/
def Inherited.text : Inherited → String
  | .method name =>
    "function " ++ (if name = "constructor" then "Object" else name)
      ++ "() \x7b [native code] \x7d"
  | .objectPrototype => "[object Object]"

/-- The result of `TEAM_LABEL[k]`. -/
inductive LabelVal
  | label (s : String)
  | inherited (i : Inherited)
  | undefined
deriving DecidableEq

/-- The constant `TEAM_LABEL`, read at key `k`. -/
def TEAM_LABEL (k : String) : LabelVal :=
  if k = "water" then .label "Team Water Wise"
  else if k = "zero" then .label "Team Net Zero"
  else if k = "power" then .label "Team Renewables"
  else
    match inheritedProperty k with
    | some i => .inherited i
    | none => .undefined

/-- The string `ToString(v)`, as a template literal applies it. -/
def LabelVal.text : LabelVal → String
  | .label s => s
  | .inherited i => i.text
  | .undefined => "undefined"

/-- The text an element contributes to `Array.prototype.join`. -/
def LabelVal.joinText : LabelVal → String
  | .undefined => ""
  | v => v.text

/-- The expression `v || fallback`, converted to a string. -/
def LabelVal.orElse (v : LabelVal) (fallback : String) : String :=
  match v with
  | .label s => if s = "" then fallback else s
  | .inherited i => i.text
  | .undefined => fallback

/-- The result of `state.teams[k]`. -/
inductive TeamVal
  | count (q : ℚ)
  | text (s : String)
  | inherited (i : Inherited)
  | undefined

/-- The read `state.teams[k]`. -/
def Teams.get (t : Teams) (k : String) : TeamVal :=
  if k = "water" then .count t.water
  else if k = "zero" then .count t.zero
  else if k = "power" then .count t.power
  else
    match t.extra.lookup k with
    | some s => .text s
    | none =>
      match inheritedProperty k with
      | some i => .inherited i
      | none => .undefined

/-- Assignment of a number to one of the three counters. -/
def Teams.setCount (t : Teams) (k : String) (q : ℚ) : Teams :=
  if k = "water" then { t with water := q }
  else if k = "zero" then { t with zero := q }
  else if k = "power" then { t with power := q }
  else t

/-- Replace the value at an existing key of an association list. -/
def replaceValue (k : String) (v : String) : List (String × String) → List (String × String)
  | [] => []
  | p :: ps => if p.1 = k then (k, v) :: ps else p :: replaceValue k v ps

/-- Assignment of a string to a property other than the three counters:
an own property is overwritten in place, a new one is created last. -/
def Teams.setExtra (t : Teams) (k : String) (v : String) : Teams :=
  match t.extra.lookup k with
  | some _ => { t with extra := replaceValue k v t.extra }
  | none => { t with extra := t.extra ++ [(k, v)] }

/-- The statement `if (state.teams[teamKey] != null) state.teams[teamKey] += 1`.
A number gets the double sum with 1.  Anything else is concatenated with
`"1"`; the resulting string becomes an own property, except under
`__proto__`, whose setter ignores a value that is not an object. -/
def Teams.bump (t : Teams) (teamKey : String) : Teams :=
  match t.get teamKey with
  | .undefined => t
  | .count q => t.setCount teamKey (addOne q)
  | .text s => t.setExtra teamKey (s ++ "1")
  | .inherited i =>
    if teamKey = "__proto__" then t else t.setExtra teamKey (i.text ++ "1")

/-- The list `Object.entries(state.teams)`. -/
def Teams.entries (t : Teams) : List (String × TeamVal) :=
  [("water", .count t.water), ("zero", .count t.zero), ("power", .count t.power)]
    ++ t.extra.map (fun p => (p.1, TeamVal.text p.2))

/-- Strict equality `v === max` with a number `max`. -/
def TeamVal.strictEq (v : TeamVal) (max : ℚ) : Bool :=
  match v with
  | .count q => decide (q = max)
  | _ => false

/-! ## Effects and the operations -/

/-- A piece of a template literal: literal text (an interpolated string
included), or an interpolated number. -/
inductive Piece
  | lit (s : String)
  | num (q : ℚ)
deriving DecidableEq

/-- What an operation does besides changing `state`. -/
inductive Effect
  | persisted (v : Json)
  | greeting (text : String)
  | celebration (winners : List LabelVal) (max : ℚ) (text : List Piece)

/-- How a call ended: the world it left, its effects in order, and whether it
ran to its end (`false`: it raised). -/
structure Outcome where
  world : World
  effects : List Effect
  completed : Bool

/-- The attendance goal. -/
def GOAL : ℕ := 50

/-- One row of the roster raises: `a.name` on `null`, or a name or team whose
conversion to a string raises. -/
def rowThrows (a : Json) : Bool :=
  match a with
  | .null => true
  | .obj ps =>
    (match ps.lookup "name" with
      | some v => v.toStringThrows
      | none => false)
    || (match ps.lookup "team" with
      | some v => v.toStringThrows
      | none => false)
  | _ => false

/-- The function `renderAttendeesUI` runs to its end. -/
def renderAttendeesUI (s : State) : Bool :=
  !(s.attendees.any rowThrows)

/-- The text set by `showGreeting(name, teamKey)`. -/
def greetingText (name teamKey : String) : String :=
  "Welcome, " ++ name ++ "! Thanks for checking in with "
    ++ (TEAM_LABEL teamKey).orElse "the event" ++ "."

/-- The labels of the winners: entries of `state.teams` equal to `max`. -/
def winnersOf (t : Teams) (max : ℚ) : List LabelVal :=
  (t.entries.filter (fun e => e.2.strictEq max)).map (fun e => TEAM_LABEL e.1)

/-- The text of the banner. -/
def celebrationText (winners : List LabelVal) (max : ℚ) : List Piece :=
  if winners.length = 1 then
    [.lit "🎉 Goal reached! ", .lit ((winners.headD .undefined).text), .lit " leads with ",
     .num max, .lit " attendee", .lit (if max = 1 then "" else "s"), .lit "!"]
  else
    [.lit "🎉 Goal reached! It\x27s a tie between ",
     .lit (" and ".intercalate (winners.map LabelVal.joinText)),
     .lit " (", .num max, .lit " each)!"]

/-- The function `celebrateIfGoalReached`, for goal `goal`.  The banner is
shown and the flag is set before `saveState` is called; `writeOk` tells
whether that call returns. -/
def celebrateIfGoalReached (goal : ℕ) (writeOk : Bool) (w : World) : Outcome :=
  if w.state.total < goal ∨ w.state.goalCelebrated = true then
    { world := w, effects := [], completed := true }
  else
    let counts := w.state.teams
    let max := Max.max (Max.max counts.water counts.zero) counts.power
    let winners := winnersOf counts max
    let text := celebrationText winners max
    let w1 : World := { w with state := { w.state with goalCelebrated := true } }
    match saveState writeOk w1 with
    | .ok w2 =>
      { world := w2
        effects := [.celebration winners max text, .persisted w1.state.toJson]
        completed := true }
    | .error _ =>
      { world := w1, effects := [.celebration winners max text], completed := false }

/-- The record pushed by `addAttendee`; `now` is the reading of `Date.now()`. -/
def attendeeRecord (name teamKey : String) (now : ℕ) : Json :=
  .obj [("name", .str name), ("team", .str teamKey), ("ts", .num (.fin now))]

/-- The updates of `state` that open `addAttendee`: the counters, then the
push onto the list. -/
def State.checkIn (s : State) (name teamKey : String) (now : ℕ) : State :=
  { s with
    total := addOne s.total
    teams := s.teams.bump teamKey
    attendees := s.attendees ++ [attendeeRecord name teamKey now] }

/-- The function `addAttendee(name, teamKey)`.  `writeOk` tells whether its
own call of `saveState` returns, `bannerWriteOk` whether the one made by
`celebrateIfGoalReached` does.  When `saveState` raises, the counters and the
list have been updated and nothing that follows it runs. -/
def addAttendee (goal : ℕ) (now : ℕ) (writeOk bannerWriteOk : Bool)
    (name teamKey : String) (w : World) : Outcome :=
  let s : State := w.state.checkIn name teamKey now
  let w1 : World := { w with state := s }
  match saveState writeOk w1 with
  | .error _ => { world := w1, effects := [], completed := false }
  | .ok w2 =>
    if renderAttendeesUI s then
      let r := celebrateIfGoalReached goal bannerWriteOk w2
      { world := r.world
        effects := [.persisted s.toJson, .greeting (greetingText name teamKey)] ++ r.effects
        completed := r.completed }
    else
      { world := w2, effects := [.persisted s.toJson], completed := false }

/-- One submission of the form: the values of the two inputs, the clock, and
whether the calls of `localStorage.setItem` made while it is handled return
(the one of `addAttendee`, then the one of `celebrateIfGoalReached`). -/
structure Submission where
  nameValue : String
  teamValue : String
  now : ℕ
  writeOk : Bool
  bannerWriteOk : Bool

/-- The submission passes the guard of the handler. -/
def Submission.accepted (sub : Submission) : Prop :=
  jsTrim sub.nameValue ≠ "" ∧ sub.teamValue ≠ ""

/-- The `submit` handler of the form. -/
def onSubmit (goal : ℕ) (w : World) (sub : Submission) : Outcome :=
  let rawName := jsTrim sub.nameValue
  let teamKey := sub.teamValue
  if rawName = "" ∨ teamKey = "" then { world := w, effects := [], completed := true }
  else addAttendee goal sub.now sub.writeOk sub.bannerWriteOk rawName teamKey w

/-- The outcomes of a sequence of submissions, one per submission.  An
exception ends its handler only: the next event is still dispatched. -/
def outcomes (goal : ℕ) : World → List Submission → List Outcome
  | _, [] => []
  | w, sub :: rest =>
    let o := onSubmit goal w sub
    o :: outcomes goal o.world rest

/-- The world after a sequence of submissions. -/
def runSubmissions (goal : ℕ) (w : World) (subs : List Submission) : World :=
  subs.foldl (fun v sub => (onSubmit goal v sub).world) w

/-- The start of the script: `loadState`, then the three calls that
initialise the page.  The handler is registered only if they complete. -/
def initialise (goal : ℕ) (bannerWriteOk : Bool) (raw : Stored) : Outcome :=
  let w : World := { state := loadState raw, stored := raw }
  if renderAttendeesUI w.state then celebrateIfGoalReached goal bannerWriteOk w
  else { world := w, effects := [], completed := false }

/-- The banner is shown by one of the effects. -/
def showsBanner (fx : List Effect) : Bool :=
  fx.any (fun e => match e with
    | .celebration _ _ _ => true
    | _ => false)

/-- A greeting is shown by one of the effects. -/
def showsGreeting (fx : List Effect) : Bool :=
  fx.any (fun e => match e with
    | .greeting _ => true
    | _ => false)

/-! ## Notions used to state the properties -/

/-- Following the specification: the labels of the teams among water, zero
and power whose count equals the maximum of the three counts, in that order. -/
def leadingTeams (t : Teams) : List String :=
  ([("Team Water Wise", t.water), ("Team Net Zero", t.zero),
    ("Team Renewables", t.power)].filter
      (fun p => decide (p.2 = Max.max (Max.max t.water t.zero) t.power))).map Prod.fst

/-- Following the specification: a count is a non-negative integer. -/
def isCount (q : ℚ) : Prop :=
  ∃ n : ℕ, q = n

/-- Following the specification: an attendee record `{name, team, ts}`. -/
def isAttendeeRecord (a : Json) : Prop :=
  ∃ (name team : String) (ts : ℚ),
    a = Json.obj [("name", .str name), ("team", .str team), ("ts", .num (.fin ts))]

/-- Following the specification (data model): `total` and the three team
counts are non-negative integers, `teams` has the three fixed keys and no
other, and `attendees` is a list of attendee records. -/
def State.wellFormed (s : State) : Prop :=
  isCount s.total ∧ isCount s.teams.water ∧ isCount s.teams.zero ∧ isCount s.teams.power
    ∧ s.teams.extra = [] ∧ ∀ a ∈ s.attendees, isAttendeeRecord a

/-- Submission number `i` (from 0) of a run stores its state and leaves
`total` at or above the goal. -/
def storesAtGoal (goal : ℕ) (w : World) (subs : List Submission) (i : ℕ) : Prop :=
  ∃ sub : Submission, subs[i]? = some sub ∧ sub.writeOk = true
    ∧ (goal : ℚ) ≤ (runSubmissions goal w (subs.take (i + 1))).state.total

/-! ## Rounding to a double -/

theorem roundHalfEven_intCast (n : ℤ) : roundHalfEven (n : ℚ) = n := by
  unfold roundHalfEven
  rw [Int.floor_intCast]
  simp

theorem ulp_pos (a : ℚ) : 0 < ulp a := by
  unfold ulp
  positivity

/-- A multiple of the spacing at its own magnitude is a double. -/
theorem roundFinite_of_int_multiple (q : ℚ) (n : ℤ) (h : q = (n : ℚ) * ulp |q|) :
    roundFinite q = q := by
  unfold roundFinite
  split
  · next h0 => exact h0.symm
  · have hu : ulp |q| ≠ 0 := (ulp_pos _).ne'
    have : q / ulp |q| = (n : ℚ) := by
      rw [div_eq_iff hu]; exact h
    rw [this, roundHalfEven_intCast]
    exact h.symm

/-- An integer of magnitude at most `2 ^ 53` is a double. -/
theorem roundFinite_int (k : ℤ) (hk : |k| ≤ 2 ^ 53) : roundFinite (k : ℚ) = k := by
  by_cases h0 : k = 0
  · subst h0; simp [roundFinite]
  have hpos : (0 : ℚ) < |(k : ℚ)| := abs_pos.mpr (by exact_mod_cast h0)
  have h1 : (1 : ℚ) ≤ |(k : ℚ)| := by
    have : 1 ≤ |k| := Int.one_le_abs h0
    exact_mod_cast this
  have hle : |(k : ℚ)| ≤ (2 : ℚ) ^ (53 : ℤ) := by
    have h2 : ((|k| : ℤ) : ℚ) ≤ ((2 ^ 53 : ℤ) : ℚ) := by exact_mod_cast hk
    rw [Int.cast_abs] at h2
    calc |(k : ℚ)| ≤ ((2 ^ 53 : ℤ) : ℚ) := h2
      _ = (2 : ℚ) ^ (53 : ℤ) := by norm_num
  have he0 : 0 ≤ Int.log 2 |(k : ℚ)| := by
    have := (Int.zpow_le_iff_le_log (b := 2) (by norm_num) (x := 0) hpos).mp (by simpa using h1)
    exact this
  have he53 : Int.log 2 |(k : ℚ)| ≤ 53 := by
    have := Int.log_mono_right (b := 2) hpos hle
    rwa [show ((2 : ℚ) ^ (53 : ℤ)) = (((2 : ℕ) : ℚ) ^ (53 : ℤ)) by norm_num,
      Int.log_zpow (by norm_num)] at this
  have hmax : max (Int.log 2 |(k : ℚ)|) (-1022) = Int.log 2 |(k : ℚ)| := by
    apply max_eq_left; omega
  by_cases h53 : Int.log 2 |(k : ℚ)| = 53
  · have hge : (2 : ℚ) ^ (53 : ℤ) ≤ |(k : ℚ)| := by
      have := Int.zpow_log_le_self (b := 2) (by norm_num) hpos
      rw [h53] at this
      simpa using this
    have habs : |(k : ℚ)| = (2 : ℚ) ^ (53 : ℤ) := le_antisymm hle hge
    have hu : ulp |(k : ℚ)| = 2 := by
      unfold ulp; rw [hmax, h53]; norm_num
    rcases abs_cases (k : ℚ) with ⟨h, -⟩ | ⟨h, -⟩
    · apply roundFinite_of_int_multiple _ (2 ^ 52)
      rw [hu]; rw [h] at habs; rw [habs]; norm_num
    · apply roundFinite_of_int_multiple _ (-(2 ^ 52))
      rw [hu]; rw [h] at habs
      have : (k : ℚ) = -((2 : ℚ) ^ (53 : ℤ)) := by linarith
      rw [this]; norm_num
  · have hlt : Int.log 2 |(k : ℚ)| ≤ 52 := by omega
    obtain ⟨d, hd⟩ : ∃ d : ℕ, (52 : ℤ) - Int.log 2 |(k : ℚ)| = d :=
      ⟨(52 - Int.log 2 |(k : ℚ)|).toNat, by omega⟩
    apply roundFinite_of_int_multiple _ (k * 2 ^ d)
    unfold ulp
    rw [hmax]
    have : Int.log 2 |(k : ℚ)| - 52 = -(d : ℤ) := by omega
    rw [this, zpow_neg, zpow_natCast]
    push_cast
    field_simp

/-- The sum `2 ^ 53 + 1` lies halfway between two doubles and rounds to the
even one, `2 ^ 53`. -/
theorem roundFinite_two_pow_53_add_one : roundFinite (2 ^ 53 + 1) = 2 ^ 53 := by
  have hpos : (0 : ℚ) < |(2 ^ 53 + 1 : ℚ)| := by norm_num
  have habs : |(2 ^ 53 + 1 : ℚ)| = 2 ^ 53 + 1 := abs_of_pos (by norm_num)
  have hlog : Int.log 2 |(2 ^ 53 + 1 : ℚ)| = 53 := by
    apply le_antisymm
    · have : Int.log 2 |(2 ^ 53 + 1 : ℚ)| < 54 := by
        rw [← Int.lt_zpow_iff_log_lt (by norm_num) hpos, habs]
        norm_num
      omega
    · rw [← Int.zpow_le_iff_le_log (by norm_num) hpos, habs]
      norm_num
  have hu : ulp |(2 ^ 53 + 1 : ℚ)| = 2 := by
    unfold ulp; rw [hlog]; norm_num
  unfold roundFinite
  rw [if_neg (by norm_num), hu]
  have hfl : ⌊((2 ^ 53 + 1 : ℚ) / 2)⌋ = 2 ^ 52 := by
    rw [Int.floor_eq_iff]; norm_num
  have : roundHalfEven ((2 ^ 53 + 1 : ℚ) / 2) = 2 ^ 52 := by
    unfold roundHalfEven
    rw [hfl]
    norm_num
  rw [this]
  norm_num

/-- Below `2 ^ 53` the double sum of an integer and 1 is exact. -/
theorem addOne_int (k : ℤ) (hlo : -(2 ^ 53) ≤ k) (hhi : k < 2 ^ 53) :
    addOne (k : ℚ) = (k : ℚ) + 1 := by
  unfold addOne
  have h := roundFinite_int (k + 1) (by rw [abs_le]; constructor <;> omega)
  push_cast at h
  exact h

theorem addOne_nat (n : ℕ) (h : n < 2 ^ 53) : addOne (n : ℚ) = (n : ℚ) + 1 := by
  have := addOne_int (n : ℤ) (by omega) (by exact_mod_cast h)
  exact_mod_cast this

/-- At `2 ^ 53` adding 1 changes nothing. -/
theorem addOne_two_pow_53 : addOne (2 ^ 53) = 2 ^ 53 := by
  unfold addOne
  exact roundFinite_two_pow_53_add_one

theorem addOne_zero : addOne 0 = 1 := by
  have := addOne_nat 0 (by norm_num)
  simpa using this

theorem addOne_one : addOne 1 = 2 := by
  have := addOne_nat 1 (by norm_num)
  norm_num at this ⊢
  exact this

theorem addOne_two : addOne 2 = 3 := by
  have := addOne_nat 2 (by norm_num)
  norm_num at this ⊢
  exact this

theorem addOne_three : addOne 3 = 4 := by
  have := addOne_nat 3 (by norm_num)
  norm_num at this ⊢
  exact this

/-! ## Basic facts about the operations -/

theorem loadState_absent : loadState .absent = defaultState := rfl

theorem loadState_empty : loadState .empty = defaultState := rfl

theorem loadState_unparsable : loadState .unparsable = defaultState := rfl

theorem saveState_true (w : World) :
    saveState true w = .ok { w with stored := .json w.state.toJson } := rfl

theorem saveState_false (w : World) : saveState false w = .error .storageError := rfl

/-- The call `celebrateIfGoalReached` when it has nothing to do. -/
theorem celebrate_idle (goal : ℕ) (ok : Bool) (w : World)
    (h : w.state.total < goal ∨ w.state.goalCelebrated = true) :
    celebrateIfGoalReached goal ok w = { world := w, effects := [], completed := true } := by
  unfold celebrateIfGoalReached
  rw [if_pos h]

/-- The call `celebrateIfGoalReached` when it fires. -/
theorem celebrate_fires (goal : ℕ) (ok : Bool) (w : World)
    (h : ¬ (w.state.total < goal ∨ w.state.goalCelebrated = true)) :
    celebrateIfGoalReached goal ok w
      = { world :=
            { state := { w.state with goalCelebrated := true }
              stored := if ok then .json (State.toJson { w.state with goalCelebrated := true })
                else w.stored }
          effects :=
            Effect.celebration
                (winnersOf w.state.teams
                  (Max.max (Max.max w.state.teams.water w.state.teams.zero) w.state.teams.power))
                (Max.max (Max.max w.state.teams.water w.state.teams.zero) w.state.teams.power)
                (celebrationText
                  (winnersOf w.state.teams
                    (Max.max (Max.max w.state.teams.water w.state.teams.zero)
                      w.state.teams.power))
                  (Max.max (Max.max w.state.teams.water w.state.teams.zero)
                    w.state.teams.power))
              :: (if ok then
                    [Effect.persisted (State.toJson { w.state with goalCelebrated := true })]
                  else [])
          completed := ok } := by
  unfold celebrateIfGoalReached
  rw [if_neg h]
  cases ok <;> rfl

/-- The call `addAttendee` when its write raises. -/
theorem addAttendee_failed (goal now : ℕ) (bok : Bool) (name teamKey : String) (w : World) :
    addAttendee goal now false bok name teamKey w
      = { world := { w with state := w.state.checkIn name teamKey now }
          effects := []
          completed := false } := rfl

/-- The call `addAttendee` when its write returns and the roster renders. -/
theorem addAttendee_stored (goal now : ℕ) (bok : Bool) (name teamKey : String) (w : World)
    (h : renderAttendeesUI (w.state.checkIn name teamKey now) = true) :
    addAttendee goal now true bok name teamKey w
      = { world := (celebrateIfGoalReached goal bok
            { state := w.state.checkIn name teamKey now
              stored := .json (w.state.checkIn name teamKey now).toJson }).world
          effects := [Effect.persisted (w.state.checkIn name teamKey now).toJson,
              Effect.greeting (greetingText name teamKey)]
            ++ (celebrateIfGoalReached goal bok
              { state := w.state.checkIn name teamKey now
                stored := .json (w.state.checkIn name teamKey now).toJson }).effects
          completed := (celebrateIfGoalReached goal bok
            { state := w.state.checkIn name teamKey now
              stored := .json (w.state.checkIn name teamKey now).toJson }).completed } := by
  unfold addAttendee
  simp only [saveState_true]
  rw [if_pos h]

/-- The call `addAttendee` when its write returns and the roster raises. -/
theorem addAttendee_render_raises (goal now : ℕ) (bok : Bool) (name teamKey : String)
    (w : World) (h : ¬ renderAttendeesUI (w.state.checkIn name teamKey now) = true) :
    addAttendee goal now true bok name teamKey w
      = { world := { state := w.state.checkIn name teamKey now
                     stored := .json (w.state.checkIn name teamKey now).toJson }
          effects := [Effect.persisted (w.state.checkIn name teamKey now).toJson]
          completed := false } := by
  unfold addAttendee
  simp only [saveState_true]
  rw [if_neg h]

theorem celebrate_total (goal : ℕ) (ok : Bool) (w : World) :
    (celebrateIfGoalReached goal ok w).world.state.total = w.state.total := by
  by_cases h : w.state.total < goal ∨ w.state.goalCelebrated = true
  · rw [celebrate_idle goal ok w h]
  · rw [celebrate_fires goal ok w h]

theorem celebrate_teams (goal : ℕ) (ok : Bool) (w : World) :
    (celebrateIfGoalReached goal ok w).world.state.teams = w.state.teams := by
  by_cases h : w.state.total < goal ∨ w.state.goalCelebrated = true
  · rw [celebrate_idle goal ok w h]
  · rw [celebrate_fires goal ok w h]

theorem celebrate_attendees (goal : ℕ) (ok : Bool) (w : World) :
    (celebrateIfGoalReached goal ok w).world.state.attendees = w.state.attendees := by
  by_cases h : w.state.total < goal ∨ w.state.goalCelebrated = true
  · rw [celebrate_idle goal ok w h]
  · rw [celebrate_fires goal ok w h]

/-- The state that `addAttendee` leaves, up to the flag: the counters and the
list are updated on every path, whether or not a write raises. -/
theorem addAttendee_state (goal now : ℕ) (ok bok : Bool) (name teamKey : String) (w : World) :
    (addAttendee goal now ok bok name teamKey w).world.state.total = addOne w.state.total ∧
    (addAttendee goal now ok bok name teamKey w).world.state.teams
      = w.state.teams.bump teamKey ∧
    (addAttendee goal now ok bok name teamKey w).world.state.attendees
      = w.state.attendees ++ [attendeeRecord name teamKey now] := by
  cases ok
  · rw [addAttendee_failed]; exact ⟨rfl, rfl, rfl⟩
  · by_cases h : renderAttendeesUI (w.state.checkIn name teamKey now) = true
    · rw [addAttendee_stored goal now bok name teamKey w h]
      exact ⟨celebrate_total _ _ _, celebrate_teams _ _ _, celebrate_attendees _ _ _⟩
    · rw [addAttendee_render_raises goal now bok name teamKey w h]
      exact ⟨rfl, rfl, rfl⟩

theorem addAttendee_total (goal now : ℕ) (ok bok : Bool) (name teamKey : String) (w : World) :
    (addAttendee goal now ok bok name teamKey w).world.state.total = addOne w.state.total :=
  (addAttendee_state goal now ok bok name teamKey w).1

theorem addAttendee_teams (goal now : ℕ) (ok bok : Bool) (name teamKey : String) (w : World) :
    (addAttendee goal now ok bok name teamKey w).world.state.teams
      = w.state.teams.bump teamKey :=
  (addAttendee_state goal now ok bok name teamKey w).2.1

theorem addAttendee_attendees (goal now : ℕ) (ok bok : Bool) (name teamKey : String)
    (w : World) :
    (addAttendee goal now ok bok name teamKey w).world.state.attendees
      = w.state.attendees ++ [attendeeRecord name teamKey now] :=
  (addAttendee_state goal now ok bok name teamKey w).2.2

theorem onSubmit_accepted (goal : ℕ) (w : World) (sub : Submission) (h : sub.accepted) :
    onSubmit goal w sub
      = addAttendee goal sub.now sub.writeOk sub.bannerWriteOk (jsTrim sub.nameValue)
          sub.teamValue w := by
  unfold onSubmit
  dsimp only
  rw [if_neg]
  rintro (h1 | h2)
  · exact h.1 h1
  · exact h.2 h2

/-! ## Runs of submissions -/

theorem runSubmissions_nil (goal : ℕ) (w : World) : runSubmissions goal w [] = w := rfl

theorem runSubmissions_cons (goal : ℕ) (w : World) (sub : Submission)
    (rest : List Submission) :
    runSubmissions goal w (sub :: rest)
      = runSubmissions goal (onSubmit goal w sub).world rest := rfl

theorem runSubmissions_append (goal : ℕ) (w : World) (xs ys : List Submission) :
    runSubmissions goal w (xs ++ ys) = runSubmissions goal (runSubmissions goal w xs) ys := by
  unfold runSubmissions
  rw [List.foldl_append]

/-- The world before submission `i + 1` is the world that submission `i` leaves. -/
theorem runSubmissions_take_succ (goal : ℕ) (w : World) (subs : List Submission) (i : ℕ)
    (sub : Submission) (h : subs[i]? = some sub) :
    runSubmissions goal w (subs.take (i + 1))
      = (onSubmit goal (runSubmissions goal w (subs.take i)) sub).world := by
  rw [List.take_succ, h, runSubmissions_append]
  rfl

theorem outcomes_length (goal : ℕ) (subs : List Submission) :
    ∀ w : World, (outcomes goal w subs).length = subs.length := by
  induction subs with
  | nil => intro w; rfl
  | cons sub rest ih => intro w; simp [outcomes, ih]

/-- Outcome number `i` is that of submission `i` on the world the earlier
submissions left. -/
theorem outcomes_getElem (goal : ℕ) (subs : List Submission) :
    ∀ (w : World) (i : ℕ),
      (outcomes goal w subs)[i]?
        = (subs[i]?).map (fun sub => onSubmit goal (runSubmissions goal w (subs.take i)) sub) := by
  induction subs with
  | nil => intro w i; simp [outcomes]
  | cons sub rest ih =>
    intro w i
    cases i with
    | zero => simp [outcomes, runSubmissions_nil]
    | succ j =>
      simp only [outcomes, List.getElem?_cons_succ, List.take_succ_cons, runSubmissions_cons]
      exact ih _ j

theorem take_accepted (subs : List Submission) (i : ℕ) (h : ∀ sub ∈ subs, sub.accepted) :
    ∀ sub ∈ subs.take i, sub.accepted :=
  fun sub hs => h sub (List.mem_of_mem_take hs)

theorem runSubmissions_attendees_length (goal : ℕ) (subs : List Submission) :
    ∀ w : World, (∀ sub ∈ subs, sub.accepted) →
      (runSubmissions goal w subs).state.attendees.length
        = w.state.attendees.length + subs.length := by
  induction subs with
  | nil => intro w _; rfl
  | cons sub rest ih =>
    intro w h
    have hsub : sub.accepted := h sub (List.mem_cons_self _ _)
    have hrest : ∀ x ∈ rest, x.accepted := fun x hx => h x (List.mem_cons_of_mem _ hx)
    rw [runSubmissions_cons, ih _ hrest, onSubmit_accepted goal w sub hsub,
      addAttendee_attendees]
    simp only [List.length_append, List.length_cons, List.length_nil]
    omega

/-- From a total that is a natural number up to `2 ^ 53`, a run counts up
one by one and stops at `2 ^ 53`. -/
theorem runSubmissions_total (goal : ℕ) (subs : List Submission) :
    ∀ (w : World) (k : ℕ), w.state.total = k → k ≤ 2 ^ 53 →
      (∀ sub ∈ subs, sub.accepted) →
      (runSubmissions goal w subs).state.total = ((min (k + subs.length) (2 ^ 53) : ℕ) : ℚ) := by
  induction subs with
  | nil =>
    intro w k hk hle _
    rw [runSubmissions_nil, hk, List.length_nil, Nat.add_zero, Nat.min_eq_left hle]
  | cons sub rest ih =>
    intro w k hk hle h
    have hsub : sub.accepted := h sub (List.mem_cons_self _ _)
    have hrest : ∀ x ∈ rest, x.accepted := fun x hx => h x (List.mem_cons_of_mem _ hx)
    rw [runSubmissions_cons]
    have ht : (onSubmit goal w sub).world.state.total = addOne (k : ℚ) := by
      rw [onSubmit_accepted goal w sub hsub, addAttendee_total, hk]
    by_cases hk53 : k < 2 ^ 53
    · have h1 : (onSubmit goal w sub).world.state.total = ((k + 1 : ℕ) : ℚ) := by
        rw [ht, addOne_nat k hk53]; push_cast; ring
      rw [ih _ (k + 1) h1 (by omega) hrest]
      congr 1
      simp only [List.length_cons]
      omega
    · have hk' : k = 2 ^ 53 := by omega
      have h1 : (onSubmit goal w sub).world.state.total = ((k : ℕ) : ℚ) := by
        rw [ht, hk']; push_cast; exact addOne_two_pow_53
      rw [ih _ k h1 hle hrest]
      congr 1
      simp only [List.length_cons]
      omega

theorem runSubmissions_teams (goal : ℕ) (subs : List Submission) :
    ∀ w : World, (∀ sub ∈ subs, sub.accepted) →
      (runSubmissions goal w subs).state.teams
        = subs.foldl (fun t sub => t.bump sub.teamValue) w.state.teams := by
  induction subs with
  | nil => intro w _; rfl
  | cons sub rest ih =>
    intro w h
    have hsub : sub.accepted := h sub (List.mem_cons_self _ _)
    have hrest : ∀ x ∈ rest, x.accepted := fun x hx => h x (List.mem_cons_of_mem _ hx)
    rw [runSubmissions_cons, ih _ hrest, onSubmit_accepted goal w sub hsub, addAttendee_teams,
      List.foldl_cons]

/-! ## The roster keeps rendering -/

theorem rowThrows_attendeeRecord (name teamKey : String) (now : ℕ) :
    rowThrows (attendeeRecord name teamKey now) = false := by
  simp [rowThrows, attendeeRecord, List.lookup, Json.toStringThrows]

theorem render_checkIn (s : State) (name teamKey : String) (now : ℕ)
    (h : renderAttendeesUI s = true) :
    renderAttendeesUI (s.checkIn name teamKey now) = true := by
  unfold renderAttendeesUI State.checkIn at *
  simp only [List.any_append, List.any_cons, List.any_nil, rowThrows_attendeeRecord,
    Bool.or_false] at h ⊢
  exact h

theorem render_of_attendees (s t : State) (h : s.attendees = t.attendees) :
    renderAttendeesUI s = renderAttendeesUI t := by
  unfold renderAttendeesUI
  rw [h]

theorem render_addAttendee (goal now : ℕ) (ok bok : Bool) (name teamKey : String) (w : World)
    (h : renderAttendeesUI w.state = true) :
    renderAttendeesUI (addAttendee goal now ok bok name teamKey w).world.state = true := by
  rw [render_of_attendees _ (w.state.checkIn name teamKey now)
    (addAttendee_attendees goal now ok bok name teamKey w)]
  exact render_checkIn _ _ _ _ h

theorem render_runSubmissions (goal : ℕ) (subs : List Submission) :
    ∀ w : World, renderAttendeesUI w.state = true → (∀ sub ∈ subs, sub.accepted) →
      renderAttendeesUI (runSubmissions goal w subs).state = true := by
  induction subs with
  | nil => intro w h _; exact h
  | cons sub rest ih =>
    intro w h hv
    have hsub : sub.accepted := hv sub (List.mem_cons_self _ _)
    have hrest : ∀ x ∈ rest, x.accepted := fun x hx => hv x (List.mem_cons_of_mem _ hx)
    rw [runSubmissions_cons]
    apply ih _ _ hrest
    rw [onSubmit_accepted goal w sub hsub]
    exact render_addAttendee _ _ _ _ _ _ _ h

/-! ## The latch -/

theorem celebrate_flag (goal : ℕ) (ok : Bool) (w : World) :
    ((celebrateIfGoalReached goal ok w).world.state.goalCelebrated = true
      ↔ (w.state.goalCelebrated = true ∨ (goal : ℚ) ≤ w.state.total)) := by
  by_cases h : w.state.total < goal ∨ w.state.goalCelebrated = true
  · rw [celebrate_idle goal ok w h]
    rcases h with h | h
    · simp [not_le.mpr h]
    · simp [h]
  · rw [celebrate_fires goal ok w h]
    push_neg at h
    simp [h.1]

theorem celebrate_banner (goal : ℕ) (ok : Bool) (w : World) :
    (showsBanner (celebrateIfGoalReached goal ok w).effects = true
      ↔ (w.state.goalCelebrated = false ∧ (goal : ℚ) ≤ w.state.total)) := by
  by_cases h : w.state.total < goal ∨ w.state.goalCelebrated = true
  · rw [celebrate_idle goal ok w h]
    rcases h with h | h
    · simp [showsBanner, not_le.mpr h]
    · simp [showsBanner, h]
  · rw [celebrate_fires goal ok w h]
    push_neg at h
    simp [showsBanner, h.1]
    simpa using h.2

theorem showsBanner_after_greeting (a b : Effect) (fx : List Effect)
    (ha : (match a with | .celebration _ _ _ => true | _ => false) = false)
    (hb : (match b with | .celebration _ _ _ => true | _ => false) = false) :
    showsBanner ([a, b] ++ fx) = showsBanner fx := by
  simp [showsBanner, ha, hb]

/-- One accepted submission on a state whose roster renders: the banner is
shown exactly when the flag is unset, the write of `addAttendee` returns and
the new total has reached the goal, and the flag is set exactly then. -/
theorem onSubmit_step (goal : ℕ) (w : World) (sub : Submission)
    (hr : renderAttendeesUI w.state = true) (hs : sub.accepted) :
    ((onSubmit goal w sub).world.state.goalCelebrated = true
      ↔ (w.state.goalCelebrated = true
          ∨ (sub.writeOk = true ∧ (goal : ℚ) ≤ (onSubmit goal w sub).world.state.total))) ∧
    (showsBanner (onSubmit goal w sub).effects = true
      ↔ (w.state.goalCelebrated = false ∧ sub.writeOk = true
          ∧ (goal : ℚ) ≤ (onSubmit goal w sub).world.state.total)) := by
  have ht : (onSubmit goal w sub).world.state.total = addOne w.state.total := by
    rw [onSubmit_accepted goal w sub hs, addAttendee_total]
  rw [ht, onSubmit_accepted goal w sub hs]
  have hr1 := render_checkIn w.state (jsTrim sub.nameValue) sub.teamValue sub.now hr
  cases hw : sub.writeOk with
  | false =>
    rw [addAttendee_failed]
    constructor
    · simp [State.checkIn]
    · simp [showsBanner]
  | true =>
    rw [addAttendee_stored goal sub.now sub.bannerWriteOk _ _ w hr1]
    dsimp only
    constructor
    · rw [celebrate_flag]
      simp [State.checkIn]
    · rw [showsBanner_after_greeting _ _ _ rfl rfl, celebrate_banner]
      simp [State.checkIn]

/-- The flag after the first `i` submissions of a run. -/
theorem flag_after_take (goal : ℕ) (w : World) (subs : List Submission)
    (hr : renderAttendeesUI w.state = true) (hv : ∀ sub ∈ subs, sub.accepted) :
    ∀ i : ℕ, i ≤ subs.length →
      ((runSubmissions goal w (subs.take i)).state.goalCelebrated = true
        ↔ (w.state.goalCelebrated = true ∨ ∃ j, j < i ∧ storesAtGoal goal w subs j)) := by
  intro i
  induction i with
  | zero =>
    intro _
    simp [runSubmissions_nil]
  | succ i ih =>
    intro hi
    have hlt : i < subs.length := by omega
    have hget : subs[i]? = some subs[i] := List.getElem?_eq_getElem hlt
    have hacc : (subs[i]).accepted := hv _ (List.getElem_mem hlt)
    have hrW := render_runSubmissions goal (subs.take i) w hr (take_accepted subs i hv)
    have hstep := (onSubmit_step goal (runSubmissions goal w (subs.take i)) subs[i] hrW hacc).1
    rw [runSubmissions_take_succ goal w subs i _ hget, hstep, ih (by omega)]
    have hS : storesAtGoal goal w subs i
        ↔ ((subs[i]).writeOk = true ∧ (goal : ℚ)
            ≤ (onSubmit goal (runSubmissions goal w (subs.take i)) subs[i]).world.state.total) := by
      unfold storesAtGoal
      rw [runSubmissions_take_succ goal w subs i _ hget]
      constructor
      · rintro ⟨sub, h1, h2, h3⟩
        rw [hget] at h1
        cases h1
        exact ⟨h2, h3⟩
      · rintro ⟨h2, h3⟩
        exact ⟨_, hget, h2, h3⟩
    rw [← hS]
    constructor
    · rintro ((h | ⟨j, hj, hSj⟩) | h)
      · exact Or.inl h
      · exact Or.inr ⟨j, by omega, hSj⟩
      · exact Or.inr ⟨i, by omega, h⟩
    · rintro (h | ⟨j, hj, hSj⟩)
      · exact Or.inl (Or.inl h)
      · by_cases hji : j = i
        · subst hji; exact Or.inr hSj
        · exact Or.inl (Or.inr ⟨j, by omega, hSj⟩)

/-- The trace of a run of accepted submissions on a state whose roster
renders: where the banner is shown and when the flag is set. -/
theorem outcomes_trace (goal : ℕ) (w : World) (subs : List Submission)
    (hr : renderAttendeesUI w.state = true) (hv : ∀ sub ∈ subs, sub.accepted)
    (i : ℕ) (o : Outcome) (ho : (outcomes goal w subs)[i]? = some o) :
    o.world = runSubmissions goal w (subs.take (i + 1)) ∧
    (showsBanner o.effects = true
      ↔ (w.state.goalCelebrated = false ∧ storesAtGoal goal w subs i
          ∧ ∀ j, j < i → ¬ storesAtGoal goal w subs j)) ∧
    (o.world.state.goalCelebrated = true
      ↔ (w.state.goalCelebrated = true ∨ ∃ j, j ≤ i ∧ storesAtGoal goal w subs j)) := by
  rw [outcomes_getElem] at ho
  have hlt : i < subs.length := by
    by_contra hcon
    rw [List.getElem?_eq_none (by omega)] at ho
    cases ho
  have hget : subs[i]? = some subs[i] := List.getElem?_eq_getElem hlt
  rw [hget] at ho
  simp only [Option.map_some', Option.some.injEq] at ho
  subst ho
  have hacc : (subs[i]).accepted := hv _ (List.getElem_mem hlt)
  have hrW := render_runSubmissions goal (subs.take i) w hr (take_accepted subs i hv)
  have hstep := (onSubmit_step goal (runSubmissions goal w (subs.take i)) subs[i] hrW hacc).2
  have hworld := (runSubmissions_take_succ goal w subs i _ hget).symm
  have hS : storesAtGoal goal w subs i
      ↔ ((subs[i]).writeOk = true ∧ (goal : ℚ)
          ≤ (onSubmit goal (runSubmissions goal w (subs.take i)) subs[i]).world.state.total) := by
    unfold storesAtGoal
    rw [runSubmissions_take_succ goal w subs i _ hget]
    constructor
    · rintro ⟨sub, h1, h2, h3⟩
      rw [hget] at h1
      cases h1
      exact ⟨h2, h3⟩
    · rintro ⟨h2, h3⟩
      exact ⟨_, hget, h2, h3⟩
  refine ⟨hworld, ?_, ?_⟩
  · rw [hstep, ← hS]
    have hflag := flag_after_take goal w subs hr hv i (by omega)
    constructor
    · rintro ⟨h1, h2⟩
      have hnot : ¬ (w.state.goalCelebrated = true ∨ ∃ j, j < i ∧ storesAtGoal goal w subs j) := by
        intro hc
        rw [hflag.mpr hc] at h1
        cases h1
      push_neg at hnot
      refine ⟨by simpa using hnot.1, h2, hnot.2⟩
    · rintro ⟨h1, h2, h3⟩
      refine ⟨?_, h2⟩
      cases hc : (runSubmissions goal w (subs.take i)).state.goalCelebrated with
      | false => rfl
      | true =>
        rcases hflag.mp hc with h | ⟨j, hj, hSj⟩
        · rw [h1] at h; cases h
        · exact absurd hSj (h3 j hj)
  · rw [hworld, flag_after_take goal w subs hr hv (i + 1) (by omega)]
    constructor
    · rintro (h | ⟨j, hj, hSj⟩)
      · exact Or.inl h
      · exact Or.inr ⟨j, by omega, hSj⟩
    · rintro (h | ⟨j, hj, hSj⟩)
      · exact Or.inl h
      · exact Or.inr ⟨j, by omega, hSj⟩

/-- The latch: once set, the flag survives `celebrateIfGoalReached` and
`addAttendee`, whatever the writes do. -/
theorem flag_stays (goal now : ℕ) (ok bok : Bool) (name teamKey : String) (w : World)
    (h : w.state.goalCelebrated = true) :
    (celebrateIfGoalReached goal ok w).world.state.goalCelebrated = true ∧
    (addAttendee goal now ok bok name teamKey w).world.state.goalCelebrated = true := by
  constructor
  · exact (celebrate_flag goal ok w).mpr (Or.inl h)
  · cases ok
    · rw [addAttendee_failed]; exact h
    · by_cases hrd : renderAttendeesUI (w.state.checkIn name teamKey now) = true
      · rw [addAttendee_stored goal now bok name teamKey w hrd]
        exact (celebrate_flag goal bok _).mpr (Or.inl h)
      · rw [addAttendee_render_raises goal now bok name teamKey w hrd]
        exact h

/-! ## The winners -/

theorem filter_extra_entries (m : ℚ) (l : List (String × String)) :
    (l.map (fun p => (p.1, TeamVal.text p.2))).filter (fun e => e.2.strictEq m) = [] := by
  rw [List.filter_eq_nil_iff]
  intro e he
  rw [List.mem_map] at he
  obtain ⟨p, -, rfl⟩ := he
  simp [TeamVal.strictEq]

theorem winnersOf_eq (t : Teams) (m : ℚ) :
    winnersOf t m
      = (if t.water = m then [LabelVal.label "Team Water Wise"] else [])
        ++ (if t.zero = m then [LabelVal.label "Team Net Zero"] else [])
        ++ (if t.power = m then [LabelVal.label "Team Renewables"] else []) := by
  unfold winnersOf Teams.entries
  rw [List.filter_append, filter_extra_entries, List.append_nil]
  by_cases h1 : t.water = m <;> by_cases h2 : t.zero = m <;> by_cases h3 : t.power = m <;>
    simp [List.filter_cons, TeamVal.strictEq, TEAM_LABEL, h1, h2, h3]

theorem leadingTeams_eq (t : Teams) :
    leadingTeams t
      = (if t.water = Max.max (Max.max t.water t.zero) t.power then ["Team Water Wise"] else [])
        ++ (if t.zero = Max.max (Max.max t.water t.zero) t.power then ["Team Net Zero"] else [])
        ++ (if t.power = Max.max (Max.max t.water t.zero) t.power
            then ["Team Renewables"] else []) := by
  unfold leadingTeams
  generalize Max.max (Max.max t.water t.zero) t.power = m
  by_cases h1 : t.water = m <;> by_cases h2 : t.zero = m <;> by_cases h3 : t.power = m <;>
    simp [List.filter_cons, h1, h2, h3]

theorem winnersOf_leadingTeams (t : Teams) :
    winnersOf t (Max.max (Max.max t.water t.zero) t.power)
      = (leadingTeams t).map LabelVal.label := by
  rw [winnersOf_eq, leadingTeams_eq]
  generalize Max.max (Max.max t.water t.zero) t.power = m
  by_cases h1 : t.water = m <;> by_cases h2 : t.zero = m <;> by_cases h3 : t.power = m <;>
    simp [h1, h2, h3]

theorem leadingTeams_ne_nil (t : Teams) : leadingTeams t ≠ [] := by
  rw [leadingTeams_eq]
  rcases max_cases (Max.max t.water t.zero) t.power with ⟨h, -⟩ | ⟨h, -⟩
  · rcases max_cases t.water t.zero with ⟨h', -⟩ | ⟨h', -⟩
    · have : t.water = Max.max (Max.max t.water t.zero) t.power := by rw [h, h']
      simp [← this]
    · have : t.zero = Max.max (Max.max t.water t.zero) t.power := by rw [h, h']
      rw [if_pos this]
      simp
  · have : t.power = Max.max (Max.max t.water t.zero) t.power := by rw [h]
    rw [if_pos this]
    simp

/-! ## Loading -/

theorem loadState_null : loadState (.json .null) = defaultState := rfl

theorem coerceNumber_none : coerceNumber none 0 = .ok 0 := rfl

theorem coerceNumber_num (q : ℚ) : coerceNumber (some (.num (.fin q))) 0 = .ok q := rfl

theorem optGet_of_not_record (v : Option Json) (k : String)
    (h : ∀ qs, v ≠ some (.obj qs)) : optGet v k = none := by
  unfold optGet
  split
  · next qs => exact absurd rfl (h qs)
  · rfl

theorem loadState_of_not_record (parsed : Json) (h : ∀ ps, parsed ≠ .obj ps) :
    loadState (.json parsed) = defaultState := by
  cases parsed with
  | obj ps => exact absurd rfl (h ps)
  | null => rfl
  | bool b => rfl
  | num q => rfl
  | str s => rfl
  | arr xs => rfl

/-- The `try` block on a stored record, in terms of its four conversions. -/
theorem loadStateTry_obj (ps : List (String × Json)) :
    loadStateTry (.json (.obj ps))
      = (match coerceNumber (ps.lookup "total") 0 with
        | .error e => .error e
        | .ok a =>
          match coerceNumber (optGet (ps.lookup "teams") "water") 0 with
          | .error e => .error e
          | .ok b =>
            match coerceNumber (optGet (ps.lookup "teams") "zero") 0 with
            | .error e => .error e
            | .ok c =>
              match coerceNumber (optGet (ps.lookup "teams") "power") 0 with
              | .error e => .error e
              | .ok d =>
                .ok { total := a
                      teams := { water := b, zero := c, power := d, extra := [] }
                      attendees := (match ps.lookup "attendees" with
                        | some (.arr xs) => xs
                        | _ => [])
                      goalCelebrated := toBoolean (ps.lookup "goalCelebrated") }) := by
  simp only [loadStateTry, Json.get, bind, Except.bind, pure, Except.pure]
  have hteams : optGet (some (Json.obj ps)) "teams" = ps.lookup "teams" := rfl
  rw [hteams]
  cases coerceNumber (ps.lookup "total") 0 with
  | error e => rfl
  | ok a =>
    cases coerceNumber (optGet (ps.lookup "teams") "water") 0 with
    | error e => rfl
    | ok b =>
      cases coerceNumber (optGet (ps.lookup "teams") "zero") 0 with
      | error e => rfl
      | ok c =>
        cases coerceNumber (optGet (ps.lookup "teams") "power") 0 with
        | error e => rfl
        | ok d => rfl

/-- A stored record whose four conversions return loads field by field. -/
theorem loadState_record (ps : List (String × Json)) (a b c d : ℚ)
    (ha : coerceNumber (ps.lookup "total") 0 = .ok a)
    (hb : coerceNumber (optGet (ps.lookup "teams") "water") 0 = .ok b)
    (hc : coerceNumber (optGet (ps.lookup "teams") "zero") 0 = .ok c)
    (hd : coerceNumber (optGet (ps.lookup "teams") "power") 0 = .ok d) :
    loadState (.json (.obj ps))
      = { total := a
          teams := { water := b, zero := c, power := d, extra := [] }
          attendees := (match ps.lookup "attendees" with
            | some (.arr xs) => xs
            | _ => [])
          goalCelebrated := toBoolean (ps.lookup "goalCelebrated") } := by
  unfold loadState
  rw [loadStateTry_obj, ha, hb, hc, hd]

/-- A stored record one of whose conversions raises loads as the default state. -/
theorem loadState_record_raises (ps : List (String × Json)) (e : JSError)
    (h : coerceNumber (ps.lookup "total") 0 = .error e
      ∨ coerceNumber (optGet (ps.lookup "teams") "water") 0 = .error e
      ∨ coerceNumber (optGet (ps.lookup "teams") "zero") 0 = .error e
      ∨ coerceNumber (optGet (ps.lookup "teams") "power") 0 = .error e) :
    loadState (.json (.obj ps)) = defaultState := by
  unfold loadState
  rw [loadStateTry_obj]
  cases ha : coerceNumber (ps.lookup "total") 0 with
  | error _ => rfl
  | ok a =>
    cases hb : coerceNumber (optGet (ps.lookup "teams") "water") 0 with
    | error _ => rfl
    | ok b =>
      cases hc : coerceNumber (optGet (ps.lookup "teams") "zero") 0 with
      | error _ => rfl
      | ok c =>
        cases hd : coerceNumber (optGet (ps.lookup "teams") "power") 0 with
        | error _ => rfl
        | ok d =>
          rw [ha, hb, hc, hd] at h
          rcases h with h | h | h | h <;> cases h

/-- On a stored record `loadState` gives the default state or the record
read field by field. -/
theorem loadState_record_cases (ps : List (String × Json)) :
    loadState (.json (.obj ps)) = defaultState ∨
    ∃ a b c d : ℚ,
      coerceNumber (ps.lookup "total") 0 = .ok a ∧
      coerceNumber (optGet (ps.lookup "teams") "water") 0 = .ok b ∧
      coerceNumber (optGet (ps.lookup "teams") "zero") 0 = .ok c ∧
      coerceNumber (optGet (ps.lookup "teams") "power") 0 = .ok d ∧
      loadState (.json (.obj ps))
        = { total := a
            teams := { water := b, zero := c, power := d, extra := [] }
            attendees := (match ps.lookup "attendees" with
              | some (.arr xs) => xs
              | _ => [])
            goalCelebrated := toBoolean (ps.lookup "goalCelebrated") } := by
  cases ha : coerceNumber (ps.lookup "total") 0 with
  | error e => exact Or.inl (loadState_record_raises ps e (Or.inl ha))
  | ok a =>
    cases hb : coerceNumber (optGet (ps.lookup "teams") "water") 0 with
    | error e => exact Or.inl (loadState_record_raises ps e (Or.inr (Or.inl hb)))
    | ok b =>
      cases hc : coerceNumber (optGet (ps.lookup "teams") "zero") 0 with
      | error e => exact Or.inl (loadState_record_raises ps e (Or.inr (Or.inr (Or.inl hc))))
      | ok c =>
        cases hd : coerceNumber (optGet (ps.lookup "teams") "power") 0 with
        | error e =>
          exact Or.inl (loadState_record_raises ps e (Or.inr (Or.inr (Or.inr hd))))
        | ok d => exact Or.inr ⟨a, b, c, d, rfl, rfl, rfl, rfl, loadState_record ps a b c d ha hb hc hd⟩

/-- What `coerceNumber` returns: the value of `Number(n)` when that is
finite, the fallback when it is not. -/
theorem coerceNumber_ok_iff (v : Option Json) (fb q : ℚ) :
    coerceNumber v fb = .ok q
      ↔ (toNumber v = .ok (.fin q)
          ∨ (q = fb ∧ ∃ n : JSNum, toNumber v = .ok n ∧ ∀ r : ℚ, n ≠ .fin r)) := by
  unfold coerceNumber
  simp only [bind, Except.bind, pure, Except.pure]
  cases h : toNumber v with
  | error e => simp
  | ok n =>
    cases n with
    | fin r =>
      simp only [Except.ok.injEq, JSNum.fin.injEq]
      constructor
      · intro h1; exact Or.inl h1
      · rintro (h1 | ⟨-, n, h2, h3⟩)
        · exact h1
        · exact absurd h2.symm (h3 r)
    | posInf =>
      simp only [Except.ok.injEq]
      constructor
      · intro h1; exact Or.inr ⟨h1.symm, _, rfl, fun r hr => by cases hr⟩
      · rintro (h1 | ⟨h1, -⟩)
        · cases h1
        · exact h1.symm
    | negInf =>
      simp only [Except.ok.injEq]
      constructor
      · intro h1; exact Or.inr ⟨h1.symm, _, rfl, fun r hr => by cases hr⟩
      · rintro (h1 | ⟨h1, -⟩)
        · cases h1
        · exact h1.symm
    | nan =>
      simp only [Except.ok.injEq]
      constructor
      · intro h1; exact Or.inr ⟨h1.symm, _, rfl, fun r hr => by cases hr⟩
      · rintro (h1 | ⟨h1, -⟩)
        · cases h1
        · exact h1.symm

/-- The image of an attendee record under `JSON.stringify` and `JSON.parse`
is the record. -/
theorem jsonImageList_records (l : List Json) (h : ∀ a ∈ l, isAttendeeRecord a) :
    jsonImageList l = l := by
  induction l with
  | nil => rfl
  | cons a rest ih =>
    obtain ⟨name, team, ts, rfl⟩ := h a (List.mem_cons_self _ _)
    have hrest := ih (fun x hx => h x (List.mem_cons_of_mem _ hx))
    simp [jsonImageList, Json.jsonImage, jsonImageProps, hrest]

/-- Loading what a state is stored as gives the state back, up to the
stray keys of `teams` and the image of the attendee list. -/
theorem load_stored_state (s : State) :
    loadState (.json s.toJson)
      = { s with teams := { s.teams with extra := [] }
                 attendees := jsonImageList s.attendees } := by
  obtain ⟨total, ⟨water, zero, power, extra⟩, attendees, flag⟩ := s
  simp [loadState, loadStateTry, State.toJson, Json.get, optGet, coerceNumber,
    toNumber, toBoolean, List.lookup, bind, Except.bind, pure, Except.pure]

/-! ## Numbers spelled by strings -/

theorem floor_le_roundHalfEven (x : ℚ) : ⌊x⌋ ≤ roundHalfEven x := by
  unfold roundHalfEven
  split
  · exact le_refl _
  · split
    · omega
    · split
      · exact le_refl _
      · omega

/-- A value of at least `2 ^ 1024` overflows to `Infinity`. -/
theorem roundDouble_of_large (q : ℚ) (h : (2 : ℚ) ^ (1024 : ℤ) ≤ q) :
    roundDouble q = .posInf := by
  have hq : 0 < q := lt_of_lt_of_le (by positivity) h
  have habs : |q| = q := abs_of_pos hq
  have hlog : 1024 ≤ Int.log 2 q := by
    rw [← Int.zpow_le_iff_le_log (by norm_num) hq, Nat.cast_ofNat]
    exact h
  have hmax : max (Int.log 2 q) (-1022) = Int.log 2 q := max_eq_left (by omega)
  have hself : (2 : ℚ) ^ Int.log 2 q ≤ q := by
    have := Int.zpow_log_le_self (b := 2) (by norm_num) hq
    rwa [Nat.cast_ofNat] at this
  have hu : ulp q = (2 : ℚ) ^ (Int.log 2 q - 52) := by
    unfold ulp; rw [hmax]
  have hupos : (0 : ℚ) < (2 : ℚ) ^ (Int.log 2 q - 52) := by positivity
  have hsplit : (2 : ℚ) ^ (52 : ℤ) * (2 : ℚ) ^ (Int.log 2 q - 52) = (2 : ℚ) ^ Int.log 2 q := by
    rw [← zpow_add₀ (by norm_num : (2 : ℚ) ≠ 0)]
    congr 1
    omega
  have hcast : (((2 : ℤ) ^ 52 : ℤ) : ℚ) = (2 : ℚ) ^ (52 : ℤ) := by norm_num
  have hdiv : (((2 : ℤ) ^ 52 : ℤ) : ℚ) ≤ q / (2 : ℚ) ^ (Int.log 2 q - 52) := by
    rw [le_div_iff₀ hupos, hcast, hsplit]
    exact hself
  have hround : ((2 : ℤ) ^ 52 : ℤ) ≤ roundHalfEven (q / (2 : ℚ) ^ (Int.log 2 q - 52)) :=
    le_trans (Int.le_floor.mpr hdiv) (floor_le_roundHalfEven _)
  have hbig : (2 : ℚ) ^ (1024 : ℤ) ≤ roundFinite q := by
    unfold roundFinite
    rw [if_neg hq.ne', habs, hu]
    have h1 : (((2 : ℤ) ^ 52 : ℤ) : ℚ) * (2 : ℚ) ^ (Int.log 2 q - 52)
        ≤ (roundHalfEven (q / (2 : ℚ) ^ (Int.log 2 q - 52)) : ℚ)
          * (2 : ℚ) ^ (Int.log 2 q - 52) := by
      apply mul_le_mul_of_nonneg_right _ hupos.le
      exact_mod_cast hround
    rw [hcast, hsplit] at h1
    have h3 : (2 : ℚ) ^ (1024 : ℤ) ≤ (2 : ℚ) ^ Int.log 2 q :=
      zpow_le_zpow_right₀ (by norm_num) hlog
    exact le_trans h3 h1
  have hbig2 : (2 : ℚ) ^ 1024 ≤ |roundFinite q| := by
    have : (2 : ℚ) ^ 1024 = (2 : ℚ) ^ (1024 : ℤ) := (zpow_ofNat (2 : ℚ) 1024).symm
    rw [this]
    exact le_trans hbig (le_abs_self _)
  unfold roundDouble
  rw [if_pos hbig2, if_pos hq]

/-- The overflow of `Number` on the mathematical value that `"1e400"` spells. -/
theorem roundDouble_ten_pow_400 : roundDouble ((10 : ℚ) ^ (400 : ℤ)) = .posInf := by
  apply roundDouble_of_large
  have h1 : (2 : ℚ) ^ (1024 : ℤ) = (2 : ℚ) ^ 1024 := zpow_ofNat (2 : ℚ) 1024
  have h2 : (10 : ℚ) ^ (400 : ℤ) = (10 : ℚ) ^ 400 := zpow_ofNat (10 : ℚ) 400
  rw [h1, h2]
  have h3 : (2 : ℚ) ^ 1024 ≤ (16 : ℚ) ^ 256 := by
    rw [show (16 : ℚ) = 2 ^ 4 by norm_num, ← pow_mul]
  have h4 : (16 : ℚ) ^ 256 ≤ (10 : ℚ) ^ 400 := by
    have h5 : (16 : ℚ) ^ 256 = ((16 : ℚ) ^ 32) ^ 8 := (pow_mul (16 : ℚ) 32 8)
    have h6 : (10 : ℚ) ^ 400 = ((10 : ℚ) ^ 50) ^ 8 := (pow_mul (10 : ℚ) 50 8)
    rw [h5, h6]
    apply pow_le_pow_left₀ (by positivity)
    norm_num
  exact le_trans h3 h4

theorem toNumber_str (s : String) : toNumber (some (.str s)) = .ok (stringToNumber s) := rfl

theorem readUnsignedDecimal_1e400 :
    readUnsignedDecimal "1e400".data = some ((10 : ℚ) ^ (400 : ℤ)) := by
  have hip : "1e400".data.takeWhile isDecimalDigit = ['1'] := by decide
  have hr1 : "1e400".data.dropWhile isDecimalDigit = ['e', '4', '0', '0'] := by decide
  have hfp : fractionDigits ['e', '4', '0', '0'] = [] := by decide
  have hr2 : afterFraction ['e', '4', '0', '0'] = ['e', '4', '0', '0'] := by decide
  have hexp : readExponent ['e', '4', '0', '0'] = some 400 := by decide
  have hi : (readDigits 10 ['1']).getD 0 = 1 := by decide
  have hf : (readDigits 10 []).getD 0 = 0 := by decide
  unfold readUnsignedDecimal
  simp only [hip, hr1, hfp, hr2, hexp, hi, hf]
  simp

/-- The string `"1e400"` spells a value beyond the doubles: `Number` gives
`Infinity`. -/
theorem stringToNumber_1e400 : stringToNumber "1e400" = .posInf := by
  have htrim : trimChars "1e400".data = ['1', 'e', '4', '0', '0'] := by decide
  have hlit : readNumericLiteral ['1', 'e', '4', '0', '0']
      = readSignedBody false ['1', 'e', '4', '0', '0'] := by
    simp [readNumericLiteral]
  have hinf : ¬ ['1', 'e', '4', '0', '0'] = "Infinity".data := by decide
  have hdata : "1e400".data = ['1', 'e', '4', '0', '0'] := rfl
  unfold stringToNumber
  simp only [htrim]
  rw [if_neg (by decide), hlit]
  unfold readSignedBody
  rw [if_neg hinf, ← hdata, readUnsignedDecimal_1e400]
  simp only [Bool.false_eq_true, if_false]
  exact roundDouble_ten_pow_400

/-- A count stored as the string `"1e400"` loads as 0, the fallback. -/
theorem overflowing_string_count :
    (loadState (.json (.obj [("total", .str "1e400")]))).total = 0 := by
  have hc : coerceNumber (some (.str "1e400")) 0 = .ok 0 := by
    rw [coerceNumber_ok_iff]
    refine Or.inr ⟨rfl, .posInf, ?_, fun r hr => by cases hr⟩
    rw [toNumber_str, stringToNumber_1e400]
  have hl : List.lookup "total" [("total", Json.str "1e400")] = some (.str "1e400") := by
    simp [List.lookup]
  rw [loadState_record [("total", .str "1e400")] 0 0 0 0 (by rw [hl]; exact hc) rfl rfl rfl]

theorem readUnsignedDecimal_big_integer :
    readUnsignedDecimal "9007199254740993".data = some (2 ^ 53 + 1) := by
  have hip : "9007199254740993".data.takeWhile isDecimalDigit = "9007199254740993".data := by
    decide
  have hr1 : "9007199254740993".data.dropWhile isDecimalDigit = [] := by decide
  have hfp : fractionDigits [] = [] := by decide
  have hr2 : afterFraction [] = [] := by decide
  have hexp : readExponent [] = some 0 := by decide
  have hi : (readDigits 10 "9007199254740993".data).getD 0 = 9007199254740993 := by decide
  have hf : (readDigits 10 []).getD 0 = 0 := by decide
  unfold readUnsignedDecimal
  simp only [hip, hr1, hfp, hr2, hexp, hi, hf]
  split
  · next hc => exact absurd hc.1 (by decide)
  · norm_num

/-- The string `"9007199254740993"` spells `2 ^ 53 + 1`, which is not a
double: `Number` gives `2 ^ 53`. -/
theorem stringToNumber_rounds : stringToNumber "9007199254740993" = .fin (2 ^ 53) := by
  have htrim : trimChars "9007199254740993".data = "9007199254740993".data := by decide
  have hdata : "9007199254740993".data
      = ['9', '0', '0', '7', '1', '9', '9', '2', '5', '4', '7', '4', '0', '9', '9', '3'] := rfl
  have hlit : readNumericLiteral "9007199254740993".data
      = readSignedBody false "9007199254740993".data := by
    rw [hdata]
    simp [readNumericLiteral]
  have hinf : ¬ "9007199254740993".data = "Infinity".data := by decide
  unfold stringToNumber
  simp only [htrim]
  rw [if_neg (by decide), hlit]
  unfold readSignedBody
  rw [if_neg hinf, readUnsignedDecimal_big_integer]
  simp only [Bool.false_eq_true, if_false]
  unfold roundDouble
  rw [roundFinite_two_pow_53_add_one, if_neg]
  rw [abs_of_pos (by positivity)]
  norm_num

/-! ## The start of the script -/

/-- The start of the script goes on to `celebrateIfGoalReached` exactly when
the roster of the loaded state renders; otherwise it raises before the
handler is registered. -/
theorem initialise_cases (goal : ℕ) (ok : Bool) (raw : Stored) :
    (renderAttendeesUI (loadState raw) = true →
      initialise goal ok raw
        = celebrateIfGoalReached goal ok { state := loadState raw, stored := raw }) ∧
    (renderAttendeesUI (loadState raw) = false →
      initialise goal ok raw
        = { world := { state := loadState raw, stored := raw }, effects := [],
            completed := false }) := by
  constructor
  · intro h
    unfold initialise
    simp only [h, if_true]
  · intro h
    unfold initialise
    simp only [h, Bool.false_eq_true, if_false]

/-- A stored state that has reached the goal without the flag shows the
banner at the start; a stored roster holding `null` stops the start. -/
theorem initialise_examples :
    showsBanner (initialise 3 true
        (.json (.obj [("total", .num (.fin 3)),
          ("teams", .obj [("water", .num (.fin 3))])]))).effects = true ∧
    (initialise 3 true (.json (.obj [("attendees", .arr [.null])]))).completed = false := by
  constructor
  · have hl : loadState (.json (.obj [("total", .num (.fin 3)),
        ("teams", .obj [("water", .num (.fin 3))])]))
        = { total := 3, teams := { water := 3, zero := 0, power := 0, extra := [] },
            attendees := [], goalCelebrated := false } := rfl
    rw [(initialise_cases 3 true _).1 (by rw [hl]; rfl), celebrate_banner, hl]
    exact ⟨rfl, by norm_num⟩
  · have hl : loadState (.json (.obj [("attendees", .arr [.null])]))
        = { total := 0, teams := { water := 0, zero := 0, power := 0, extra := [] },
            attendees := [.null], goalCelebrated := false } := rfl
    rw [(initialise_cases 3 true _).2 (by rw [hl]; rfl)]

/-- The two scenarios of the specification reach the counts used in the
witness of C4: water and zero give 1, 1, 0; water, water and zero give
2, 1, 0. -/
theorem scenario_counts :
    (runSubmissions 2 { state := defaultState, stored := .absent }
        [Submission.mk "Ann" "water" 1 true true,
         Submission.mk "Bob" "zero" 2 true true]).state.teams
      = { water := 1, zero := 1, power := 0, extra := [] } ∧
    (runSubmissions 3 { state := defaultState, stored := .absent }
        [Submission.mk "Ann" "water" 1 true true, Submission.mk "Bob" "water" 2 true true,
         Submission.mk "Cy" "zero" 3 true true]).state.teams
      = { water := 2, zero := 1, power := 0, extra := [] } := by
  have hz : ¬ ("zero" : String) = "water" := by decide
  constructor
  · rw [runSubmissions_teams]
    · simp [Teams.bump, Teams.get, Teams.setCount, defaultState, hz, addOne_zero]
    · intro sub hsub
      simp only [List.mem_cons, List.mem_singleton, List.not_mem_nil, or_false] at hsub
      rcases hsub with rfl | rfl <;> exact ⟨by decide, by decide⟩
  · rw [runSubmissions_teams]
    · simp [Teams.bump, Teams.get, Teams.setCount, defaultState, hz, addOne_zero, addOne_one]
    · intro sub hsub
      simp only [List.mem_cons, List.mem_singleton, List.not_mem_nil, or_false] at hsub
      rcases hsub with rfl | rfl | rfl <;> exact ⟨by decide, by decide⟩

/-! ## The claims -/

/-- C4: when `celebrateIfGoalReached` fires, the teams it names are exactly
the teams among water, zero and power whose count is the maximum of the three
counts.  There is always at least one; a single one is reported as the leader
with that count, two or more are all reported jointly as a tie.  The banner
precedes the write, which is recorded when it returns. -/
theorem celebration_names_leaders (goal : ℕ) (writeOk : Bool) (w : World)
    (hgoal : (goal : ℚ) ≤ w.state.total) (hflag : w.state.goalCelebrated = false) :
    leadingTeams w.state.teams ≠ [] ∧
    (∀ l : String, l ∈ leadingTeams w.state.teams ↔
      ((l = "Team Water Wise" ∧ w.state.teams.water
          = Max.max (Max.max w.state.teams.water w.state.teams.zero) w.state.teams.power)
        ∨ (l = "Team Net Zero" ∧ w.state.teams.zero
          = Max.max (Max.max w.state.teams.water w.state.teams.zero) w.state.teams.power)
        ∨ (l = "Team Renewables" ∧ w.state.teams.power
          = Max.max (Max.max w.state.teams.water w.state.teams.zero) w.state.teams.power))) ∧
    (∃ text : List Piece,
      (celebrateIfGoalReached goal writeOk w).effects
        = Effect.celebration ((leadingTeams w.state.teams).map LabelVal.label)
             (Max.max (Max.max w.state.teams.water w.state.teams.zero) w.state.teams.power) text
           :: (if writeOk then
                [Effect.persisted (State.toJson { w.state with goalCelebrated := true })]
              else []) ∧
      (∀ l : String, leadingTeams w.state.teams = [l] →
        text = [.lit "🎉 Goal reached! ", .lit l, .lit " leads with ",
          .num (Max.max (Max.max w.state.teams.water w.state.teams.zero) w.state.teams.power),
          .lit " attendee",
          .lit (if Max.max (Max.max w.state.teams.water w.state.teams.zero) w.state.teams.power = 1
            then "" else "s"),
          .lit "!"]) ∧
      (2 ≤ (leadingTeams w.state.teams).length →
        text = [.lit "🎉 Goal reached! It\x27s a tie between ",
          .lit (" and ".intercalate (leadingTeams w.state.teams)),
          .lit " (",
          .num (Max.max (Max.max w.state.teams.water w.state.teams.zero) w.state.teams.power),
          .lit " each)!"])) := by
  refine ⟨leadingTeams_ne_nil _, ?_, ?_⟩
  · intro l
    rw [leadingTeams_eq]
    generalize Max.max (Max.max w.state.teams.water w.state.teams.zero) w.state.teams.power = m
    by_cases h1 : w.state.teams.water = m <;> by_cases h2 : w.state.teams.zero = m <;>
      by_cases h3 : w.state.teams.power = m <;> simp [h1, h2, h3]
  · have hno : ¬ (w.state.total < (goal : ℚ) ∨ w.state.goalCelebrated = true) := by
      rintro (h | h)
      · exact absurd hgoal (not_le.mpr h)
      · rw [hflag] at h; cases h
    refine ⟨celebrationText ((leadingTeams w.state.teams).map LabelVal.label)
      (Max.max (Max.max w.state.teams.water w.state.teams.zero) w.state.teams.power), ?_, ?_, ?_⟩
    · rw [celebrate_fires goal writeOk w hno, winnersOf_leadingTeams]
    · intro l hl
      rw [hl]
      simp [celebrationText, LabelVal.text]
    · intro h2
      have hlen : ¬ ((leadingTeams w.state.teams).map LabelVal.label).length = 1 := by
        rw [List.length_map]; omega
      unfold celebrationText
      rw [if_neg hlen, List.map_map]
      have hid : (LabelVal.joinText ∘ LabelVal.label) = id := by
        funext x; rfl
      rw [hid, List.map_id]

/-- Witness of C4: with goal 2 and counts 1, 1, 0 both teams are named as
tied at 1 each; with goal 3 and counts 2, 1, 0 only Team Water Wise is named,
with count 2. -/
theorem celebration_names_leaders_witness :
    (celebrateIfGoalReached 2 true
        { state := { total := 2, teams := { water := 1, zero := 1, power := 0, extra := [] },
                     attendees := [], goalCelebrated := false },
          stored := .absent }).effects
      = [Effect.celebration [.label "Team Water Wise", .label "Team Net Zero"] 1
           [.lit "🎉 Goal reached! It\x27s a tie between ",
            .lit "Team Water Wise and Team Net Zero", .lit " (", .num 1, .lit " each)!"],
         Effect.persisted (State.toJson
           { total := 2, teams := { water := 1, zero := 1, power := 0, extra := [] },
             attendees := [], goalCelebrated := true })] ∧
    (celebrateIfGoalReached 3 true
        { state := { total := 3, teams := { water := 2, zero := 1, power := 0, extra := [] },
                     attendees := [], goalCelebrated := false },
          stored := .absent }).effects
      = [Effect.celebration [.label "Team Water Wise"] 2
           [.lit "🎉 Goal reached! ", .lit "Team Water Wise", .lit " leads with ", .num 2,
            .lit " attendee", .lit "s", .lit "!"],
         Effect.persisted (State.toJson
           { total := 3, teams := { water := 2, zero := 1, power := 0, extra := [] },
             attendees := [], goalCelebrated := true })] := by
  constructor
  · obtain ⟨-, -, text, heq, -, htie⟩ := celebration_names_leaders 2 true
      { state := { total := 2, teams := { water := 1, zero := 1, power := 0, extra := [] },
                   attendees := [], goalCelebrated := false },
        stored := .absent } (by norm_num) rfl
    have hl : leadingTeams { water := 1, zero := 1, power := 0, extra := [] }
        = ["Team Water Wise", "Team Net Zero"] := by
      rw [leadingTeams_eq]; norm_num
    rw [heq, htie (by rw [hl]; decide), hl]
    norm_num
    decide
  · obtain ⟨-, -, text, heq, hsole, -⟩ := celebration_names_leaders 3 true
      { state := { total := 3, teams := { water := 2, zero := 1, power := 0, extra := [] },
                   attendees := [], goalCelebrated := false },
        stored := .absent } (by norm_num) rfl
    have hl : leadingTeams { water := 2, zero := 1, power := 0, extra := [] }
        = ["Team Water Wise"] := by
      rw [leadingTeams_eq]; norm_num
    rw [heq, hsole _ hl, hl]
    norm_num

/-- C5: a submission whose name is empty after trimming (a name made of
white space only is one) or whose team key is empty is ignored: the state
and the stored value are unchanged and there is no effect at all, so nothing
is persisted and no greeting is shown. -/
theorem rejected_submission_is_ignored (goal : ℕ) (w : World) (sub : Submission)
    (hbad : jsTrim sub.nameValue = "" ∨ sub.teamValue = "") :
    (onSubmit goal w sub).world = w ∧
    (onSubmit goal w sub).effects = [] ∧
    showsGreeting (onSubmit goal w sub).effects = false ∧
    (∀ s : String, s.data.all isStrWhiteSpaceChar = true → jsTrim s = "") := by
  have h : onSubmit goal w sub = { world := w, effects := [], completed := true } := by
    unfold onSubmit
    dsimp only
    rw [if_pos hbad]
  refine ⟨by rw [h], by rw [h], by rw [h]; rfl, ?_⟩
  intro s hs
  have hdrop : s.data.dropWhile isStrWhiteSpaceChar = [] := by
    rw [List.dropWhile_eq_nil_iff]
    intro c hc
    exact (List.all_eq_true.mp hs) c hc
  unfold jsTrim trimChars
  rw [hdrop]
  rfl

/-- Witness of C5: a name of blanks, a tab and a no-break space, with a
recognised team. -/
theorem rejected_submission_is_ignored_witness :
    (jsTrim "  \t\xa0 " = "" ∨ "water" = "") ∧
    (onSubmit 50 { state := defaultState, stored := .absent }
        (Submission.mk "  \t\xa0 " "water" 1000 true true)).effects = [] :=
  ⟨Or.inl (by decide),
   (rejected_submission_is_ignored 50 { state := defaultState, stored := .absent }
      (Submission.mk "  \t\xa0 " "water" 1000 true true) (Or.inl (by decide))).2.1⟩

/-- C6: for a well-formed state, `saveState` (its write returning) followed
by `loadState` gives back a state equal to the saved one. -/
theorem save_then_load_round_trip (w : World) (h : w.state.wellFormed) :
    ∃ v : World, saveState true w = .ok v ∧ v.state = w.state
      ∧ loadState v.stored = w.state := by
  refine ⟨{ w with stored := .json w.state.toJson }, rfl, rfl, ?_⟩
  show loadState (.json w.state.toJson) = w.state
  rw [load_stored_state, jsonImageList_records _ h.2.2.2.2.2]
  obtain ⟨s, st⟩ := w
  obtain ⟨total, ⟨water, zero, power, extra⟩, attendees, flag⟩ := s
  have hex : extra = [] := h.2.2.2.2.1
  subst hex
  rfl

/-- Witness of C6: a state with two attendee records. -/
theorem save_then_load_round_trip_witness :
    ∃ v : World,
      saveState true
          { state :=
              { total := 2, teams := { water := 1, zero := 0, power := 1, extra := [] },
                attendees := [attendeeRecord "Ann" "water" 1000,
                  attendeeRecord "Bob" "power" 2000],
                goalCelebrated := false },
            stored := .absent } = .ok v ∧
      v.state
        = { total := 2, teams := { water := 1, zero := 0, power := 1, extra := [] },
            attendees := [attendeeRecord "Ann" "water" 1000, attendeeRecord "Bob" "power" 2000],
            goalCelebrated := false } ∧
      loadState v.stored
        = { total := 2, teams := { water := 1, zero := 0, power := 1, extra := [] },
            attendees := [attendeeRecord "Ann" "water" 1000, attendeeRecord "Bob" "power" 2000],
            goalCelebrated := false } :=
  save_then_load_round_trip _
    ⟨⟨2, by norm_num⟩, ⟨1, by norm_num⟩, ⟨0, by norm_num⟩, ⟨1, by norm_num⟩, rfl, by
      intro a ha
      simp only [List.mem_cons, List.mem_singleton, List.not_mem_nil, or_false] at ha
      rcases ha with rfl | rfl
      · exact ⟨"Ann", "water", 1000, by simp [attendeeRecord]⟩
      · exact ⟨"Bob", "power", 2000, by simp [attendeeRecord]⟩⟩

/-- The stray key of C9 is lost on reload: the state is not well-formed and
does not survive the round trip. -/
theorem stray_key_lost_on_reload :
    (loadState (.json (State.toJson
        { total := 1
          teams :=
            { water := 0, zero := 0, power := 0
              extra := [("toString", "function toString() \x7b [native code] \x7d1")] }
          attendees := []
          goalCelebrated := false }))).teams.extra = [] := by
  rw [load_stored_state]

/-- C9, on the code: a check-in whose team key is `toString` leaves the
three counts alone and raises `total`, and it also gives `state.teams` an
own property `toString` holding a string, which `saveState` then persists. -/
theorem prototype_key_adds_property :
    (addAttendee 50 1000 true true "Eve" "toString"
        { state := defaultState, stored := .absent }).world.state.teams
      = { water := 0, zero := 0, power := 0
          extra := [("toString", "function toString() \x7b [native code] \x7d1")] } ∧
    (addAttendee 50 1000 true true "Eve" "toString"
        { state := defaultState, stored := .absent }).world.state.total = 1 ∧
    (addAttendee 50 1000 true true "Eve" "constructor"
        { state := defaultState, stored := .absent }).world.state.teams.extra
      = [("constructor", "function Object() \x7b [native code] \x7d1")] := by
  refine ⟨?_, ?_, ?_⟩
  · rw [addAttendee_teams]; rfl
  · rw [addAttendee_total]; exact addOne_zero
  · rw [addAttendee_teams]; rfl

/-- A team key that is neither a counter nor an own property nor a property
of `Object.prototype` leaves `state.teams` as it is. -/
theorem unknown_key_leaves_teams (t : Teams) (k : String)
    (h1 : k ≠ "water") (h2 : k ≠ "zero") (h3 : k ≠ "power")
    (h4 : t.extra.lookup k = none) (h5 : inheritedProperty k = none) :
    t.bump k = t := by
  simp [Teams.bump, Teams.get, h1, h2, h3, h4, h5]

/-- C10: `addAttendee` keeps every attendee record in place and appends
exactly one record, carrying the given name and team key, whether or not a
write raises; the same name and team submitted twice give two records. -/
theorem attendee_record_appended (goal now now2 : ℕ) (ok bok ok2 bok2 : Bool)
    (name teamKey : String) (w : World) :
    (addAttendee goal now ok bok name teamKey w).world.state.attendees
      = w.state.attendees
        ++ [Json.obj [("name", .str name), ("team", .str teamKey), ("ts", .num (.fin now))]] ∧
    (addAttendee goal now2 ok2 bok2 name teamKey
        (addAttendee goal now ok bok name teamKey w).world).world.state.attendees
      = w.state.attendees
        ++ [Json.obj [("name", .str name), ("team", .str teamKey), ("ts", .num (.fin now))],
            Json.obj [("name", .str name), ("team", .str teamKey), ("ts", .num (.fin now2))]] := by
  constructor
  · rw [addAttendee_attendees]; rfl
  · rw [addAttendee_attendees, addAttendee_attendees]
    simp [attendeeRecord]

/-- C1, as stated, fails: `total` is a double, and at `2 ^ 53` the sum with 1
rounds back to `2 ^ 53`.  After `2 ^ 53 + 1` accepted submissions on the
default state `total` is `2 ^ 53`, not the number of submissions. -/
theorem total_stops_at_two_pow_53 :
    (∀ sub ∈ List.replicate (2 ^ 53 + 1) (Submission.mk "Ann" "water" 0 true true),
      sub.accepted) ∧
    (runSubmissions 50 { state := loadState .absent, stored := .absent }
        (List.replicate (2 ^ 53 + 1)
          (Submission.mk "Ann" "water" 0 true true))).state.total = 2 ^ 53 ∧
    (runSubmissions 50 { state := loadState .absent, stored := .absent }
        (List.replicate (2 ^ 53 + 1)
          (Submission.mk "Ann" "water" 0 true true))).state.total
      ≠ ((List.replicate (2 ^ 53 + 1)
          (Submission.mk "Ann" "water" 0 true true)).length : ℚ) := by
  have hv : ∀ sub ∈ List.replicate (2 ^ 53 + 1) (Submission.mk "Ann" "water" 0 true true),
      sub.accepted := by
    intro sub hsub
    rw [List.eq_of_mem_replicate hsub]
    exact ⟨by decide, by decide⟩
  have ht := runSubmissions_total 50
    (List.replicate (2 ^ 53 + 1) (Submission.mk "Ann" "water" 0 true true))
    { state := loadState .absent, stored := .absent } 0 (by simp [loadState_absent, defaultState])
    (by norm_num) hv
  rw [List.length_replicate] at ht
  have hmin : min (0 + (2 ^ 53 + 1)) (2 ^ 53) = 2 ^ 53 := by norm_num
  rw [hmin] at ht
  refine ⟨hv, ?_, ?_⟩
  · rw [ht]; norm_num
  · rw [ht, List.length_replicate]; norm_num

/-- C1, amended: starting from the default state that `loadState` returns for
empty storage, `N` accepted submissions leave `N` attendee records and
`total = min N (2 ^ 53)`, so `total = N` for every `N` up to `2 ^ 53`.  Each
of the first `2 ^ 53` submissions raises `total` by exactly 1, and no
submission lowers it; neither depends on whether the writes return. -/
theorem total_and_roster_after_accepted (goal : ℕ) (subs : List Submission)
    (hvalid : ∀ sub ∈ subs, sub.accepted) :
    (runSubmissions goal { state := loadState .absent, stored := .absent } subs).state.total
        = ((min subs.length (2 ^ 53) : ℕ) : ℚ) ∧
    (runSubmissions goal { state := loadState .absent, stored := .absent }
        subs).state.attendees.length = subs.length ∧
    (subs.length ≤ 2 ^ 53 →
      (runSubmissions goal { state := loadState .absent, stored := .absent } subs).state.total
        = subs.length) ∧
    (∀ (i : ℕ) (sub : Submission), subs[i]? = some sub →
      (i < 2 ^ 53 →
        (onSubmit goal
            (runSubmissions goal { state := loadState .absent, stored := .absent }
              (subs.take i)) sub).world.state.total
          = (runSubmissions goal { state := loadState .absent, stored := .absent }
              (subs.take i)).state.total + 1) ∧
      (runSubmissions goal { state := loadState .absent, stored := .absent }
            (subs.take i)).state.total
        ≤ (onSubmit goal
            (runSubmissions goal { state := loadState .absent, stored := .absent }
              (subs.take i)) sub).world.state.total) := by
  have h0 : ({ state := loadState .absent, stored := .absent } : World).state.total
      = ((0 : ℕ) : ℚ) := by
    simp [loadState_absent, defaultState]
  have htot : ∀ l : List Submission, (∀ sub ∈ l, sub.accepted) →
      (runSubmissions goal { state := loadState .absent, stored := .absent } l).state.total
        = ((min l.length (2 ^ 53) : ℕ) : ℚ) := by
    intro l hl
    have := runSubmissions_total goal l _ 0 h0 (by norm_num) hl
    rwa [Nat.zero_add] at this
  refine ⟨htot subs hvalid, ?_, ?_, ?_⟩
  · have := runSubmissions_attendees_length goal subs
      { state := loadState .absent, stored := .absent } hvalid
    rw [this]
    simp [loadState_absent, defaultState]
  · intro hN
    rw [htot subs hvalid, Nat.min_eq_left hN]
  · intro i sub hsub
    have hlt : i < subs.length := by
      by_contra hcon
      rw [List.getElem?_eq_none (by omega)] at hsub
      cases hsub
    have hbefore := htot (subs.take i) (take_accepted subs i hvalid)
    have hafter := htot (subs.take (i + 1)) (take_accepted subs (i + 1) hvalid)
    rw [runSubmissions_take_succ goal _ subs i sub hsub] at hafter
    have hlen1 : (subs.take i).length = i := by
      rw [List.length_take]; exact Nat.min_eq_left (by omega)
    have hlen2 : (subs.take (i + 1)).length = i + 1 := by
      rw [List.length_take]; exact Nat.min_eq_left (by omega)
    rw [hlen1] at hbefore
    rw [hlen2] at hafter
    rw [hbefore, hafter]
    constructor
    · intro hi
      rw [Nat.min_eq_left (by omega), Nat.min_eq_left (by omega)]
      push_cast
      ring
    · have : min i (2 ^ 53) ≤ min (i + 1) (2 ^ 53) := by
        apply min_le_min _ (le_refl _)
        omega
      exact_mod_cast this

/-- Witness of C1 (amended): two accepted submissions, the second with a
failing write and a team key that is not one of the three teams. -/
theorem total_and_roster_after_accepted_witness :
    (∀ sub ∈ [Submission.mk " Ann " "water" 1000 true true,
        Submission.mk "Bob" "toString" 2000 false true], sub.accepted) ∧
    (runSubmissions 50 { state := loadState .absent, stored := .absent }
        [Submission.mk " Ann " "water" 1000 true true,
         Submission.mk "Bob" "toString" 2000 false true]).state.total = 2 ∧
    (runSubmissions 50 { state := loadState .absent, stored := .absent }
        [Submission.mk " Ann " "water" 1000 true true,
         Submission.mk "Bob" "toString" 2000 false true]).state.attendees.length = 2 :=
  have hv : ∀ sub ∈ [Submission.mk " Ann " "water" 1000 true true,
      Submission.mk "Bob" "toString" 2000 false true], sub.accepted := by
    intro sub hsub
    simp only [List.mem_cons, List.mem_singleton, List.not_mem_nil, or_false] at hsub
    rcases hsub with rfl | rfl <;> exact ⟨by decide, by decide⟩
  ⟨hv,
   by
    have h := (total_and_roster_after_accepted 50 _ hv).2.2.1 (by norm_num)
    rw [h]
    norm_num,
   (total_and_roster_after_accepted 50 _ hv).2.1⟩

/-- C2, as stated, fails: a count is a double, and a count of `2 ^ 53` is not
raised by `+= 1`.  With water at `2 ^ 53` a check-in for water leaves the
count, and the sum of the three counts, as they were. -/
theorem count_at_two_pow_53_not_raised :
    (addAttendee 50 0 true true "Ann" "water"
        { state := { total := 0, teams := { water := 2 ^ 53, zero := 0, power := 0, extra := [] },
                     attendees := [], goalCelebrated := false },
          stored := .absent }).world.state.teams.water = 2 ^ 53 ∧
    (addAttendee 50 0 true true "Ann" "water"
        { state := { total := 0, teams := { water := 2 ^ 53, zero := 0, power := 0, extra := [] },
                     attendees := [], goalCelebrated := false },
          stored := .absent }).world.state.teams.water
      + (addAttendee 50 0 true true "Ann" "water"
        { state := { total := 0, teams := { water := 2 ^ 53, zero := 0, power := 0, extra := [] },
                     attendees := [], goalCelebrated := false },
          stored := .absent }).world.state.teams.zero
      + (addAttendee 50 0 true true "Ann" "water"
        { state := { total := 0, teams := { water := 2 ^ 53, zero := 0, power := 0, extra := [] },
                     attendees := [], goalCelebrated := false },
          stored := .absent }).world.state.teams.power
      ≠ (2 ^ 53 + 0 + 0 : ℚ) + 1 := by
  have ht : (addAttendee 50 0 true true "Ann" "water"
      { state := { total := 0, teams := { water := 2 ^ 53, zero := 0, power := 0, extra := [] },
                   attendees := [], goalCelebrated := false },
        stored := .absent }).world.state.teams
      = { water := 2 ^ 53, zero := 0, power := 0, extra := [] } := by
    rw [addAttendee_teams]
    simp [Teams.bump, Teams.get, Teams.setCount, addOne_two_pow_53]
  rw [ht]
  constructor
  · rfl
  · norm_num

/-- C2, amended: for a team key among water, zero and power, `addAttendee`
replaces the count of the chosen key by its double sum with 1 and leaves the
other two counts and any other key of `teams` unchanged, whether or not a
write raises.  When the count is an integer `k` with `-2 ^ 53 ≤ k < 2 ^ 53`
the sum is exact: the count of the chosen key, and with it the sum of the
three counts, goes up by exactly 1. -/
theorem recognised_key_raises_its_count (goal now : ℕ) (ok bok : Bool)
    (name teamKey : String) (w : World)
    (hkey : teamKey = "water" ∨ teamKey = "zero" ∨ teamKey = "power") :
    (teamKey = "water" →
      (addAttendee goal now ok bok name teamKey w).world.state.teams
        = { w.state.teams with water := addOne w.state.teams.water }) ∧
    (teamKey = "zero" →
      (addAttendee goal now ok bok name teamKey w).world.state.teams
        = { w.state.teams with zero := addOne w.state.teams.zero }) ∧
    (teamKey = "power" →
      (addAttendee goal now ok bok name teamKey w).world.state.teams
        = { w.state.teams with power := addOne w.state.teams.power }) ∧
    (∀ k : ℤ, -(2 ^ 53) ≤ k → k < 2 ^ 53 → w.state.teams.get teamKey = .count k →
      (addAttendee goal now ok bok name teamKey w).world.state.teams.get teamKey
          = .count (k + 1) ∧
      (addAttendee goal now ok bok name teamKey w).world.state.teams.water
          + (addAttendee goal now ok bok name teamKey w).world.state.teams.zero
          + (addAttendee goal now ok bok name teamKey w).world.state.teams.power
        = w.state.teams.water + w.state.teams.zero + w.state.teams.power + 1) := by
  rw [addAttendee_teams]
  rcases hkey with rfl | rfl | rfl
  · refine ⟨fun _ => by simp [Teams.bump, Teams.get, Teams.setCount],
      fun h => absurd h (by decide), fun h => absurd h (by decide), ?_⟩
    intro k hlo hhi hk
    simp only [Teams.get, if_true] at hk
    have hw : w.state.teams.water = k := by injection hk
    simp [Teams.bump, Teams.get, Teams.setCount, hw, addOne_int k hlo hhi]
    ring
  · refine ⟨fun h => absurd h (by decide), fun _ => by simp [Teams.bump, Teams.get, Teams.setCount],
      fun h => absurd h (by decide), ?_⟩
    intro k hlo hhi hk
    have hne : ¬ ("zero" : String) = "water" := by decide
    simp only [Teams.get, if_neg hne, if_true] at hk
    have hw : w.state.teams.zero = k := by injection hk
    simp [Teams.bump, Teams.get, Teams.setCount, hw, addOne_int k hlo hhi]
    ring
  · refine ⟨fun h => absurd h (by decide), fun h => absurd h (by decide),
      fun _ => by simp [Teams.bump, Teams.get, Teams.setCount], ?_⟩
    intro k hlo hhi hk
    have hne : ¬ ("power" : String) = "water" := by decide
    have hne2 : ¬ ("power" : String) = "zero" := by decide
    simp only [Teams.get, if_neg hne, if_neg hne2, if_true] at hk
    have hw : w.state.teams.power = k := by injection hk
    simp [Teams.bump, Teams.get, Teams.setCount, hw, addOne_int k hlo hhi]
    ring

/-- Witness of C2 (amended): a check-in for team zero on counts 4, 7 and 2. -/
theorem recognised_key_raises_its_count_witness :
    (addAttendee 50 1000 true true "Ann" "zero"
        { state := { total := 13, teams := { water := 4, zero := 7, power := 2, extra := [] },
                     attendees := [], goalCelebrated := false },
          stored := .absent }).world.state.teams.get "zero" = .count (((7 : ℤ) : ℚ) + 1) :=
  ((recognised_key_raises_its_count 50 1000 true true "Ann" "zero"
      { state := { total := 13, teams := { water := 4, zero := 7, power := 2, extra := [] },
                   attendees := [], goalCelebrated := false },
        stored := .absent } (Or.inr (Or.inl rfl))).2.2.2 7 (by norm_num) (by norm_num)
      (by simp [Teams.get])).1

/-- The totals of a run on the default state, for the first `2 ^ 53` steps. -/
theorem default_run_total (goal : ℕ) (subs : List Submission) (hv : ∀ sub ∈ subs, sub.accepted)
    (n : ℕ) (hn : n ≤ subs.length) (hn53 : n ≤ 2 ^ 53) :
    (runSubmissions goal { state := defaultState, stored := .absent }
      (subs.take n)).state.total = n := by
  have h := runSubmissions_total goal (subs.take n) { state := defaultState, stored := .absent } 0
    (by simp [defaultState]) (by norm_num) (take_accepted subs n hv)
  rw [List.length_take, Nat.min_eq_left hn, Nat.zero_add, Nat.min_eq_left hn53] at h
  exact h

/-- C3, as stated, fails: `saveState` is called, uncaught, before
`celebrateIfGoalReached`.  With goal 3, the third accepted submission brings
`total` to 3 but its write raises, so it shows no banner; the banner is shown
by the fourth submission. -/
theorem failed_write_delays_banner :
    (∀ sub ∈ [Submission.mk "Ann" "water" 1 true true, Submission.mk "Bob" "water" 2 true true,
        Submission.mk "Cy" "zero" 3 false true, Submission.mk "Di" "power" 4 true true],
      sub.accepted) ∧
    (∀ o : Outcome,
      (outcomes 3 { state := defaultState, stored := .absent }
        [Submission.mk "Ann" "water" 1 true true, Submission.mk "Bob" "water" 2 true true,
         Submission.mk "Cy" "zero" 3 false true, Submission.mk "Di" "power" 4 true true])[1]?
          = some o →
      o.world.state.total = 2) ∧
    (∀ o : Outcome,
      (outcomes 3 { state := defaultState, stored := .absent }
        [Submission.mk "Ann" "water" 1 true true, Submission.mk "Bob" "water" 2 true true,
         Submission.mk "Cy" "zero" 3 false true, Submission.mk "Di" "power" 4 true true])[2]?
          = some o →
      o.world.state.total = 3 ∧ ¬ showsBanner o.effects = true) ∧
    (∀ o : Outcome,
      (outcomes 3 { state := defaultState, stored := .absent }
        [Submission.mk "Ann" "water" 1 true true, Submission.mk "Bob" "water" 2 true true,
         Submission.mk "Cy" "zero" 3 false true, Submission.mk "Di" "power" 4 true true])[3]?
          = some o →
      showsBanner o.effects = true) := by
  have hv : ∀ sub ∈ [Submission.mk "Ann" "water" 1 true true,
      Submission.mk "Bob" "water" 2 true true, Submission.mk "Cy" "zero" 3 false true,
      Submission.mk "Di" "power" 4 true true], sub.accepted := by
    intro sub hsub
    simp only [List.mem_cons, List.mem_singleton, List.not_mem_nil, or_false] at hsub
    rcases hsub with rfl | rfl | rfl | rfl <;> exact ⟨by decide, by decide⟩
  have htot := default_run_total 3 _ hv
  have htrace := outcomes_trace 3 { state := defaultState, stored := .absent } _ rfl hv
  have hS0 : ¬ storesAtGoal 3 { state := defaultState, stored := .absent }
      [Submission.mk "Ann" "water" 1 true true, Submission.mk "Bob" "water" 2 true true,
       Submission.mk "Cy" "zero" 3 false true, Submission.mk "Di" "power" 4 true true] 0 := by
    rintro ⟨sub, -, -, h⟩
    rw [htot 1 (by decide) (by norm_num)] at h
    norm_num at h
  have hS1 : ¬ storesAtGoal 3 { state := defaultState, stored := .absent }
      [Submission.mk "Ann" "water" 1 true true, Submission.mk "Bob" "water" 2 true true,
       Submission.mk "Cy" "zero" 3 false true, Submission.mk "Di" "power" 4 true true] 1 := by
    rintro ⟨sub, -, -, h⟩
    rw [htot 2 (by decide) (by norm_num)] at h
    norm_num at h
  have hS2 : ¬ storesAtGoal 3 { state := defaultState, stored := .absent }
      [Submission.mk "Ann" "water" 1 true true, Submission.mk "Bob" "water" 2 true true,
       Submission.mk "Cy" "zero" 3 false true, Submission.mk "Di" "power" 4 true true] 2 := by
    rintro ⟨sub, hsub, hw, -⟩
    simp only [List.getElem?_cons_succ, List.getElem?_cons_zero, Option.some.injEq] at hsub
    subst hsub
    cases hw
  have hS3 : storesAtGoal 3 { state := defaultState, stored := .absent }
      [Submission.mk "Ann" "water" 1 true true, Submission.mk "Bob" "water" 2 true true,
       Submission.mk "Cy" "zero" 3 false true, Submission.mk "Di" "power" 4 true true] 3 := by
    refine ⟨Submission.mk "Di" "power" 4 true true, rfl, rfl, ?_⟩
    rw [htot 4 (by decide) (by norm_num)]
    norm_num
  refine ⟨hv, ?_, ?_, ?_⟩
  · intro o ho
    rw [(htrace 1 o ho).1, htot 2 (by decide) (by norm_num)]
    norm_num
  · intro o ho
    refine ⟨?_, ?_⟩
    · rw [(htrace 2 o ho).1, htot 3 (by decide) (by norm_num)]
      norm_num
    · intro hb
      exact hS2 (((htrace 2 o ho).2.1).mp hb).2.1
  · intro o ho
    refine ((htrace 3 o ho).2.1).mpr ⟨rfl, hS3, ?_⟩
    intro j hj
    have : j = 0 ∨ j = 1 ∨ j = 2 := by omega
    rcases this with rfl | rfl | rfl
    · exact hS0
    · exact hS1
    · exact hS2

/-- C3, amended: the celebration fires at most once.  From a state reached
after initialisation (so its roster renders) with the flag unset, a run of
accepted submissions shows the banner on the first submission that stores its
state (its call of `saveState` returns) and leaves `total` at or above the
goal, and on no other one; the flag is set from that submission on.  When
every write returns this is the submission that first makes `total` reach
the goal.  Neither `celebrateIfGoalReached` nor `addAttendee` ever clears a
set flag. -/
theorem celebration_fires_once (goal : ℕ) (w : World) (subs : List Submission)
    (hrender : renderAttendeesUI w.state = true)
    (hflag : w.state.goalCelebrated = false)
    (hvalid : ∀ sub ∈ subs, sub.accepted) :
    (outcomes goal w subs).length = subs.length ∧
    (∀ (i : ℕ) (o : Outcome), (outcomes goal w subs)[i]? = some o →
      o.world = runSubmissions goal w (subs.take (i + 1)) ∧
      (showsBanner o.effects = true
        ↔ (storesAtGoal goal w subs i ∧ ∀ j, j < i → ¬ storesAtGoal goal w subs j)) ∧
      (o.world.state.goalCelebrated = true ↔ ∃ j, j ≤ i ∧ storesAtGoal goal w subs j)) ∧
    (∀ (i j : ℕ) (oi oj : Outcome), (outcomes goal w subs)[i]? = some oi →
      (outcomes goal w subs)[j]? = some oj →
      showsBanner oi.effects = true → showsBanner oj.effects = true → i = j) ∧
    ((∀ sub ∈ subs, sub.writeOk = true) →
      ∀ (i : ℕ) (o : Outcome), (outcomes goal w subs)[i]? = some o →
        (showsBanner o.effects = true
          ↔ ((goal : ℚ) ≤ o.world.state.total
              ∧ ∀ (j : ℕ) (oj : Outcome), j < i → (outcomes goal w subs)[j]? = some oj →
                  oj.world.state.total < goal))) ∧
    (∀ (g n : ℕ) (ok bok : Bool) (name teamKey : String) (v : World),
      v.state.goalCelebrated = true →
      (celebrateIfGoalReached g ok v).world.state.goalCelebrated = true ∧
      (addAttendee g n ok bok name teamKey v).world.state.goalCelebrated = true) := by
  have htrace := outcomes_trace goal w subs hrender hvalid
  have hchar : ∀ (i : ℕ) (o : Outcome), (outcomes goal w subs)[i]? = some o →
      o.world = runSubmissions goal w (subs.take (i + 1)) ∧
      (showsBanner o.effects = true
        ↔ (storesAtGoal goal w subs i ∧ ∀ j, j < i → ¬ storesAtGoal goal w subs j)) ∧
      (o.world.state.goalCelebrated = true ↔ ∃ j, j ≤ i ∧ storesAtGoal goal w subs j) := by
    intro i o ho
    obtain ⟨h1, h2, h3⟩ := htrace i o ho
    refine ⟨h1, ?_, ?_⟩
    · rw [h2]
      constructor
      · rintro ⟨-, h4, h5⟩; exact ⟨h4, h5⟩
      · rintro ⟨h4, h5⟩; exact ⟨hflag, h4, h5⟩
    · rw [h3]
      constructor
      · rintro (h4 | h4)
        · rw [hflag] at h4; cases h4
        · exact h4
      · intro h4; exact Or.inr h4
  refine ⟨outcomes_length goal subs w, hchar, ?_, ?_, ?_⟩
  · intro i j oi oj hi hj hbi hbj
    obtain ⟨hSi, hni⟩ := ((hchar i oi hi).2.1).mp hbi
    obtain ⟨hSj, hnj⟩ := ((hchar j oj hj).2.1).mp hbj
    by_contra hne
    rcases Nat.lt_or_gt_of_ne hne with h | h
    · exact hnj i h hSi
    · exact hni j h hSj
  · intro hw i o ho
    have hlen := outcomes_length goal subs w
    have hSiff : ∀ (j : ℕ) (oj : Outcome), (outcomes goal w subs)[j]? = some oj →
        (storesAtGoal goal w subs j ↔ (goal : ℚ) ≤ oj.world.state.total) := by
      intro j oj hoj
      have hjlt : j < subs.length := by
        by_contra hcon
        rw [List.getElem?_eq_none (by omega)] at hoj
        cases hoj
      rw [(hchar j oj hoj).1]
      unfold storesAtGoal
      constructor
      · rintro ⟨sub, -, -, h⟩; exact h
      · intro h
        exact ⟨subs[j], List.getElem?_eq_getElem hjlt, hw _ (List.getElem_mem hjlt), h⟩
    rw [((hchar i o ho).2.1), hSiff i o ho]
    have hilt : i < subs.length := by
      by_contra hcon
      rw [List.getElem?_eq_none (by omega)] at ho
      cases ho
    constructor
    · rintro ⟨h1, h2⟩
      refine ⟨h1, ?_⟩
      intro j oj hj hoj
      have := h2 j hj
      rw [hSiff j oj hoj] at this
      exact not_le.mp this
    · rintro ⟨h1, h2⟩
      refine ⟨h1, ?_⟩
      intro j hj
      have hjlt : j < (outcomes goal w subs).length := by omega
      rw [hSiff j _ (List.getElem?_eq_getElem hjlt)]
      exact not_le.mpr (h2 j _ hj (List.getElem?_eq_getElem hjlt))
  · intro g n ok bok name teamKey v hv
    exact flag_stays g n ok bok name teamKey v hv

/-- Witness of C3 (amended): with goal 3, every write returning, and
check-ins for water, water, zero and power on the default state, the banner
is shown by the third submission and not by the fourth. -/
theorem celebration_fires_once_witness :
    (outcomes 3 { state := defaultState, stored := .absent }
      [Submission.mk "Ann" "water" 1 true true, Submission.mk "Bob" "water" 2 true true,
       Submission.mk "Cy" "zero" 3 true true, Submission.mk "Di" "power" 4 true true]).length
      = 4 ∧
    (∀ o : Outcome,
      (outcomes 3 { state := defaultState, stored := .absent }
        [Submission.mk "Ann" "water" 1 true true, Submission.mk "Bob" "water" 2 true true,
         Submission.mk "Cy" "zero" 3 true true, Submission.mk "Di" "power" 4 true true])[2]?
          = some o →
      showsBanner o.effects = true) ∧
    (∀ o : Outcome,
      (outcomes 3 { state := defaultState, stored := .absent }
        [Submission.mk "Ann" "water" 1 true true, Submission.mk "Bob" "water" 2 true true,
         Submission.mk "Cy" "zero" 3 true true, Submission.mk "Di" "power" 4 true true])[3]?
          = some o →
      ¬ showsBanner o.effects = true) := by
  have hv : ∀ sub ∈ [Submission.mk "Ann" "water" 1 true true,
      Submission.mk "Bob" "water" 2 true true, Submission.mk "Cy" "zero" 3 true true,
      Submission.mk "Di" "power" 4 true true], sub.accepted := by
    intro sub hsub
    simp only [List.mem_cons, List.mem_singleton, List.not_mem_nil, or_false] at hsub
    rcases hsub with rfl | rfl | rfl | rfl <;> exact ⟨by decide, by decide⟩
  have hw : ∀ sub ∈ [Submission.mk "Ann" "water" 1 true true,
      Submission.mk "Bob" "water" 2 true true, Submission.mk "Cy" "zero" 3 true true,
      Submission.mk "Di" "power" 4 true true], sub.writeOk = true := by
    intro sub hsub
    simp only [List.mem_cons, List.mem_singleton, List.not_mem_nil, or_false] at hsub
    rcases hsub with rfl | rfl | rfl | rfl <;> rfl
  have htot := default_run_total 3 _ hv
  obtain ⟨hlen, hchar, huniq, hall, -⟩ := celebration_fires_once 3
    { state := defaultState, stored := .absent }
    [Submission.mk "Ann" "water" 1 true true, Submission.mk "Bob" "water" 2 true true,
     Submission.mk "Cy" "zero" 3 true true, Submission.mk "Di" "power" 4 true true]
    rfl rfl hv
  have hthird : ∀ o : Outcome,
      (outcomes 3 { state := defaultState, stored := .absent }
        [Submission.mk "Ann" "water" 1 true true, Submission.mk "Bob" "water" 2 true true,
         Submission.mk "Cy" "zero" 3 true true, Submission.mk "Di" "power" 4 true true])[2]?
          = some o →
      showsBanner o.effects = true := by
    intro o ho
    refine ((hall hw 2 o ho)).mpr ⟨?_, ?_⟩
    · rw [(hchar 2 o ho).1, htot 3 (by decide) (by norm_num)]
    · intro j oj hj hoj
      rw [(hchar j oj hoj).1, htot (j + 1) (by simp; omega) (by omega)]
      have : j + 1 < 3 := by omega
      exact_mod_cast this
  refine ⟨hlen, hthird, ?_⟩
  intro o ho hb
  have h2 : (2 : ℕ) < (outcomes 3 { state := defaultState, stored := .absent }
      [Submission.mk "Ann" "water" 1 true true, Submission.mk "Bob" "water" 2 true true,
       Submission.mk "Cy" "zero" 3 true true, Submission.mk "Di" "power" 4 true true]).length := by
    rw [hlen]; decide
  have := huniq 3 2 o _ ho (List.getElem?_eq_getElem h2) hb
    (hthird _ (List.getElem?_eq_getElem h2))
  omega

/-- C7, as stated, fails: a parsable record in which `teams` is missing and
`attendees` is not a list keeps its stored `total` and flag, so the result is
not the default state. -/
theorem malformed_payload_not_default :
    (loadState (.json (.obj [("total", .num (.fin 5)), ("attendees", .str "x"),
        ("goalCelebrated", .bool true)]))).total = 5 ∧
    (loadState (.json (.obj [("total", .num (.fin 5)), ("attendees", .str "x"),
        ("goalCelebrated", .bool true)]))).goalCelebrated = true ∧
    loadState (.json (.obj [("total", .num (.fin 5)), ("attendees", .str "x"),
        ("goalCelebrated", .bool true)])) ≠ defaultState := by
  refine ⟨rfl, rfl, ?_⟩
  intro h
  have h2 := congrArg State.goalCelebrated h
  exact absurd h2 (by decide)

/-- C7, amended: `loadState` always returns a state.  It is the default
state when the stored value is absent, empty, unparsable or not a record,
and when converting one of the four stored counts raises.  Any other stored
record is read field by field: `total` and the three team counts are
`coerceNumber` of the stored values, `attendees` is the stored list, or the
empty list when the stored value is not a list, and the flag is `Boolean` of
the stored value.  So the three team counts are 0 when `teams` is missing or
not a record and the attendee list is empty when `attendees` is not a list,
whatever the other fields hold. -/
theorem malformed_fields_fall_back :
    (loadState .absent = defaultState ∧ loadState .empty = defaultState
      ∧ loadState .unparsable = defaultState) ∧
    (∀ parsed : Json, (∀ ps, parsed ≠ .obj ps) → loadState (.json parsed) = defaultState) ∧
    (∀ (ps : List (String × Json)) (e : JSError),
      (coerceNumber (ps.lookup "total") 0 = .error e
        ∨ coerceNumber (optGet (ps.lookup "teams") "water") 0 = .error e
        ∨ coerceNumber (optGet (ps.lookup "teams") "zero") 0 = .error e
        ∨ coerceNumber (optGet (ps.lookup "teams") "power") 0 = .error e) →
      loadState (.json (.obj ps)) = defaultState) ∧
    (∀ (ps : List (String × Json)) (a b c d : ℚ),
      coerceNumber (ps.lookup "total") 0 = .ok a →
      coerceNumber (optGet (ps.lookup "teams") "water") 0 = .ok b →
      coerceNumber (optGet (ps.lookup "teams") "zero") 0 = .ok c →
      coerceNumber (optGet (ps.lookup "teams") "power") 0 = .ok d →
      loadState (.json (.obj ps))
        = { total := a
            teams := { water := b, zero := c, power := d, extra := [] }
            attendees := (match ps.lookup "attendees" with
              | some (.arr xs) => xs
              | _ => [])
            goalCelebrated := toBoolean (ps.lookup "goalCelebrated") }) ∧
    (∀ ps : List (String × Json), (∀ qs, ps.lookup "teams" ≠ some (.obj qs)) →
      (loadState (.json (.obj ps))).teams.water = 0 ∧
      (loadState (.json (.obj ps))).teams.zero = 0 ∧
      (loadState (.json (.obj ps))).teams.power = 0) ∧
    (∀ ps : List (String × Json), (∀ xs, ps.lookup "attendees" ≠ some (.arr xs)) →
      (loadState (.json (.obj ps))).attendees = []) := by
  refine ⟨⟨rfl, rfl, rfl⟩, loadState_of_not_record, loadState_record_raises,
    loadState_record, ?_, ?_⟩
  · intro ps hteams
    rcases loadState_record_cases ps with h | ⟨a, b, c, d, -, hb, hc, hd, h⟩
    · rw [h]; exact ⟨rfl, rfl, rfl⟩
    · rw [optGet_of_not_record _ _ hteams, coerceNumber_none] at hb hc hd
      simp only [Except.ok.injEq] at hb hc hd
      rw [h]
      exact ⟨hb.symm, hc.symm, hd.symm⟩
  · intro ps hatt
    rcases loadState_record_cases ps with h | ⟨a, b, c, d, -, -, -, -, h⟩
    · rw [h]; rfl
    · rw [h]
      show (match ps.lookup "attendees" with
        | some (.arr xs) => xs
        | _ => []) = []
      split
      · next xs hx => exact absurd hx (hatt xs)
      · rfl

/-- Witness of C7 (amended): the record with `teams` missing, `attendees` a
string, `total` 5 and the flag set loads with `total` 5, the flag set, zero
team counts and no attendee. -/
theorem malformed_fields_fall_back_witness :
    loadState (.json (.obj [("total", .num (.fin 5)), ("attendees", .str "x"),
        ("goalCelebrated", .bool true)]))
      = { total := 5
          teams := { water := 0, zero := 0, power := 0, extra := [] }
          attendees := []
          goalCelebrated := true } :=
  malformed_fields_fall_back.2.2.2.1
    [("total", .num (.fin 5)), ("attendees", .str "x"), ("goalCelebrated", .bool true)]
    5 0 0 0 rfl rfl rfl rfl

/-- A stored record one of whose counts cannot be converted is dropped as a
whole: here `teams.water` is an object with an own `toString`. -/
theorem raising_count_drops_record :
    loadState (.json (.obj [("total", .num (.fin 5)),
        ("teams", .obj [("water", .obj [("toString", .num (.fin 1))])]),
        ("attendees", .str "x"), ("goalCelebrated", .bool true)])) = defaultState := rfl

/-- A stored count that is an array of one number is converted to that
number, and a boolean to 1. -/
theorem array_and_boolean_counts :
    (loadState (.json (.obj [("total", .arr [.num (.fin 5)]),
        ("teams", .obj [("water", .bool true)])]))).total = 5 ∧
    (loadState (.json (.obj [("total", .arr [.num (.fin 5)]),
        ("teams", .obj [("water", .bool true)])]))).teams.water = 1 := ⟨rfl, rfl⟩

/-- A stored number that `JSON.parse` reads as an infinity loads as 0. -/
theorem infinite_count_is_zero :
    (loadState (.json (.obj [("total", .num .posInf)]))).total = 0 := rfl

/-- C8, as stated, fails: a stored negative total and a stored fractional
team count are returned as they are, and neither is a non-negative integer. -/
theorem stored_counts_kept_as_they_are :
    (loadState (.json (.obj [("total", .num (.fin (-5))),
        ("teams", .obj [("water", .num (.fin (1 / 2)))])]))).total = -5 ∧
    (loadState (.json (.obj [("total", .num (.fin (-5))),
        ("teams", .obj [("water", .num (.fin (1 / 2)))])]))).teams.water = 1 / 2 ∧
    ¬ isCount (loadState (.json (.obj [("total", .num (.fin (-5))),
        ("teams", .obj [("water", .num (.fin (1 / 2)))])]))).total ∧
    ¬ isCount (loadState (.json (.obj [("total", .num (.fin (-5))),
        ("teams", .obj [("water", .num (.fin (1 / 2)))])]))).teams.water := by
  have h1 : (loadState (.json (.obj [("total", .num (.fin (-5))),
      ("teams", .obj [("water", .num (.fin (1 / 2)))])]))).total = -5 := rfl
  have h2 : (loadState (.json (.obj [("total", .num (.fin (-5))),
      ("teams", .obj [("water", .num (.fin (1 / 2)))])]))).teams.water = 1 / 2 := rfl
  refine ⟨h1, h2, ?_, ?_⟩
  · rw [h1]
    rintro ⟨n, hn⟩
    have : (0 : ℚ) ≤ (n : ℚ) := Nat.cast_nonneg n
    linarith
  · rw [h2]
    rintro ⟨n, hn⟩
    have h3 : (1 : ℚ) = ((2 * n : ℕ) : ℚ) := by push_cast; linarith
    have h4 : 1 = 2 * n := by exact_mod_cast h3
    omega

/-- C8, amended: `loadState` always returns a state, the default one when the
stored value is absent, empty or unparsable (or not a record).  On a stored
record the result is the default state or every count is the value of
`Number` on the stored field when that value is finite, and 0 when it is an
infinity or `NaN`.  A stored finite number is therefore returned unchanged,
whether or not it is a non-negative integer. -/
theorem loadState_always_a_state :
    (loadState .absent = defaultState ∧ loadState .empty = defaultState
      ∧ loadState .unparsable = defaultState) ∧
    (∀ parsed : Json, (∀ ps, parsed ≠ .obj ps) → loadState (.json parsed) = defaultState) ∧
    (∀ ps : List (String × Json),
      loadState (.json (.obj ps)) = defaultState ∨
      ((toNumber (ps.lookup "total") = .ok (.fin (loadState (.json (.obj ps))).total)
          ∨ ((loadState (.json (.obj ps))).total = 0
            ∧ ∃ n : JSNum, toNumber (ps.lookup "total") = .ok n ∧ ∀ r : ℚ, n ≠ .fin r)) ∧
        (toNumber (optGet (ps.lookup "teams") "water")
            = .ok (.fin (loadState (.json (.obj ps))).teams.water)
          ∨ ((loadState (.json (.obj ps))).teams.water = 0
            ∧ ∃ n : JSNum, toNumber (optGet (ps.lookup "teams") "water") = .ok n
              ∧ ∀ r : ℚ, n ≠ .fin r)) ∧
        (toNumber (optGet (ps.lookup "teams") "zero")
            = .ok (.fin (loadState (.json (.obj ps))).teams.zero)
          ∨ ((loadState (.json (.obj ps))).teams.zero = 0
            ∧ ∃ n : JSNum, toNumber (optGet (ps.lookup "teams") "zero") = .ok n
              ∧ ∀ r : ℚ, n ≠ .fin r)) ∧
        (toNumber (optGet (ps.lookup "teams") "power")
            = .ok (.fin (loadState (.json (.obj ps))).teams.power)
          ∨ ((loadState (.json (.obj ps))).teams.power = 0
            ∧ ∃ n : JSNum, toNumber (optGet (ps.lookup "teams") "power") = .ok n
              ∧ ∀ r : ℚ, n ≠ .fin r)))) ∧
    (∀ (ps : List (String × Json)) (q : ℚ),
      (ps.lookup "total" = some (.num (.fin q)) →
        loadState (.json (.obj ps)) = defaultState ∨ (loadState (.json (.obj ps))).total = q) ∧
      (optGet (ps.lookup "teams") "water" = some (.num (.fin q)) →
        loadState (.json (.obj ps)) = defaultState
          ∨ (loadState (.json (.obj ps))).teams.water = q) ∧
      (optGet (ps.lookup "teams") "zero" = some (.num (.fin q)) →
        loadState (.json (.obj ps)) = defaultState
          ∨ (loadState (.json (.obj ps))).teams.zero = q) ∧
      (optGet (ps.lookup "teams") "power" = some (.num (.fin q)) →
        loadState (.json (.obj ps)) = defaultState
          ∨ (loadState (.json (.obj ps))).teams.power = q)) := by
  refine ⟨⟨rfl, rfl, rfl⟩, loadState_of_not_record, ?_, ?_⟩
  · intro ps
    rcases loadState_record_cases ps with h | ⟨a, b, c, d, ha, hb, hc, hd, h⟩
    · exact Or.inl h
    · refine Or.inr ?_
      rw [h]
      exact ⟨(coerceNumber_ok_iff _ 0 a).mp ha, (coerceNumber_ok_iff _ 0 b).mp hb,
        (coerceNumber_ok_iff _ 0 c).mp hc, (coerceNumber_ok_iff _ 0 d).mp hd⟩
  · intro ps q
    rcases loadState_record_cases ps with h | ⟨a, b, c, d, ha, hb, hc, hd, h⟩
    · exact ⟨fun _ => Or.inl h, fun _ => Or.inl h, fun _ => Or.inl h, fun _ => Or.inl h⟩
    · refine ⟨fun hq => Or.inr ?_, fun hq => Or.inr ?_, fun hq => Or.inr ?_,
        fun hq => Or.inr ?_⟩
      · rw [hq, coerceNumber_num] at ha
        rw [h]; exact (Except.ok.inj ha).symm
      · rw [hq, coerceNumber_num] at hb
        rw [h]; exact (Except.ok.inj hb).symm
      · rw [hq, coerceNumber_num] at hc
        rw [h]; exact (Except.ok.inj hc).symm
      · rw [hq, coerceNumber_num] at hd
        rw [h]; exact (Except.ok.inj hd).symm

/-- Witness of C8 (amended): the record with total `-5` and water `1/2`. -/
theorem loadState_always_a_state_witness :
    (loadState (.json (.obj [("total", .num (.fin (-5))),
        ("teams", .obj [("water", .num (.fin (1 / 2)))])])) = defaultState
      ∨ (loadState (.json (.obj [("total", .num (.fin (-5))),
        ("teams", .obj [("water", .num (.fin (1 / 2)))])]))).total = -5) ∧
    (loadState (.json (.obj [("total", .num (.fin (-5))),
        ("teams", .obj [("water", .num (.fin (1 / 2)))])]))).total = -5 :=
  ⟨(loadState_always_a_state.2.2.2
      [("total", .num (.fin (-5))), ("teams", .obj [("water", .num (.fin (1 / 2)))])]
      (-5)).1 rfl, rfl⟩

end CheckIn
